import Mathlib

/-!
# Verification of the sqlc-gen-crystal code-generation engine

A shallow embedding of the Crystal code generator for sqlc
(`internal/crystal/generator.go`, `internal/crystal/types.go`,
`internal/crystal/strings.go`, `internal/crystal/templates.go`,
`internal/codegen/codegen.go`), together with theorems settling the
behavioural claims about type mapping, struct deduplication, parameter
ordering, slice-parameter expansion and output determinism.

Go strings are modelled as Lean `String` (ASCII; all identifiers and SQL
text handled by the generator are ASCII).  Go maps are modelled as
association lists with insert-or-replace (`upsert`) semantics; where the
generator iterates over a Go map (whose iteration order is unspecified),
the iteration order is modelled explicitly — see `runRepositories`.
Functions that consume more than one element per step are given an
explicit fuel argument (always called with fuel = length of the input,
which is sufficient: every step consumes at least one element) so that
all definitions are structurally recursive and computable by the kernel.
-/

namespace SqlcCr

/-! ## Basic string helpers (Go `strings` package equivalents) -/

/-- ASCII uppercase letter test, matching the Go regexp character class `[A-Z]`. -/
def isUpperAZ (c : Char) : Bool := 'A' ≤ c && c ≤ 'Z'

/-- ASCII lowercase letter test, matching the Go regexp character class `[a-z]`. -/
def isLowerAZ (c : Char) : Bool := 'a' ≤ c && c ≤ 'z'

/-- ASCII digit test, matching the Go regexp character class `[0-9]`. -/
def isDigit09 (c : Char) : Bool := '0' ≤ c && c ≤ '9'

/-- ASCII letter test (used by the model of Go `strings.Title`). -/
def isLetterAZ (c : Char) : Bool := isUpperAZ c || isLowerAZ c

/-- Whitespace as split by Go `strings.Fields` / trimmed by `strings.TrimSpace`
(ASCII subset). -/
def isSpaceGo (c : Char) : Bool := c = ' ' || c = '\t' || c = '\n' || c = '\r'

/-- Does `needle` occur as a contiguous sublist of `hay`?  Models Go
`strings.Contains`. -/
def subOcc : List Char → List Char → Bool
  | [], needle => needle.isEmpty
  | _h :: t, needle => needle.isPrefixOf (_h :: t) || subOcc t needle

/-- Go `strings.Contains`. -/
def strContains (s sub : String) : Bool := subOcc s.data sub.data

/-- Go `strings.HasPrefix`. -/
def strStartsWith (s p : String) : Bool := p.data.isPrefixOf s.data

/-- Go `strings.HasSuffix`. -/
def strEndsWith (s p : String) : Bool := p.data.reverse.isPrefixOf s.data.reverse

/-- Go `strings.ToLower` (ASCII). -/
def lowerStr (s : String) : String := ⟨s.data.map Char.toLower⟩

/-- Go `strings.ToUpper` (ASCII). -/
def upperStr (s : String) : String := ⟨s.data.map Char.toUpper⟩

/-- Go `strings.TrimSpace` (ASCII whitespace). -/
def trimSpaceGo (s : String) : String :=
  ⟨((s.data.dropWhile isSpaceGo).reverse.dropWhile isSpaceGo).reverse⟩

/-- Go `strings.Trim(s, cutset)` for a one-character cutset: remove the
character from both ends. -/
def trimCharGo (s : String) (c : Char) : String :=
  ⟨((s.data.dropWhile (· = c)).reverse.dropWhile (· = c)).reverse⟩

/-- Fuelled worker for `splitOnSub`: split at every occurrence of the
(nonempty) separator, as Go `strings.Split`.  `acc` holds the current
segment, reversed. -/
def splitOnSubAux : Nat → List Char → List Char → List Char → List (List Char)
  | 0, s, _, acc => [acc.reverse ++ s]
  | _ + 1, [], _, acc => [acc.reverse]
  | fuel + 1, h :: t, sep, acc =>
    if sep.isPrefixOf (h :: t) && !sep.isEmpty then
      acc.reverse :: splitOnSubAux fuel (List.drop sep.length (h :: t)) sep []
    else
      splitOnSubAux fuel t sep (h :: acc)

/-- Go `strings.Split(s, sep)` for a nonempty separator. -/
def splitOnSub (s sep : String) : List String :=
  (splitOnSubAux s.data.length s.data sep.data []).map (⟨·⟩)

/-- Fuelled worker for `fieldsGo`: split into maximal runs of non-whitespace,
as Go `strings.Fields`. -/
def fieldsAux : Nat → List Char → List (List Char)
  | 0, _ => []
  | _ + 1, [] => []
  | fuel + 1, h :: t =>
    if isSpaceGo h then fieldsAux fuel t
    else
      ((h :: t).takeWhile (fun c => !isSpaceGo c)) ::
        fieldsAux fuel ((h :: t).dropWhile (fun c => !isSpaceGo c))

/-- Go `strings.Fields`. -/
def fieldsGo (s : String) : List String := (fieldsAux s.data.length s.data).map (⟨·⟩)

/-! ## Case conversion (`internal/crystal/strings.go`) -/

/-- Fuelled worker modelling
`matchFirstCap.ReplaceAllString(str, "${1}_${2}")` with
`matchFirstCap = regexp.MustCompile("(.)([A-Z][a-z]+)")`: scan left to
right; at a match (any character, an uppercase letter, one or more
lowercase letters) insert an underscore and resume after the match
(matches do not overlap). -/
def firstCapAux : Nat → List Char → List Char
  | 0, s => s
  | _ + 1, [] => []
  | _ + 1, [c] => [c]
  | fuel + 1, c1 :: c2 :: rest =>
    if isUpperAZ c2 && (match rest with | r :: _ => isLowerAZ r | [] => false) then
      c1 :: '_' :: c2 :: (rest.takeWhile isLowerAZ ++ firstCapAux fuel (rest.dropWhile isLowerAZ))
    else
      c1 :: firstCapAux fuel (c2 :: rest)

/-- Worker modelling `matchAllCap.ReplaceAllString(snake, "${1}_${2}")` with
`matchAllCap = regexp.MustCompile("([a-z0-9])([A-Z])")`. -/
def allCapAux : List Char → List Char
  | [] => []
  | [c] => [c]
  | c1 :: c2 :: rest =>
    if (isLowerAZ c1 || isDigit09 c1) && isUpperAZ c2 then
      c1 :: '_' :: c2 :: allCapAux rest
    else
      c1 :: allCapAux (c2 :: rest)

/-- `toSnakeCase` from `strings.go`: apply the two regexp replacements, then
lowercase. -/
def toSnakeCase (s : String) : String :=
  ⟨(allCapAux (firstCapAux s.data.length s.data)).map Char.toLower⟩

/-- Capitalize the first letter and lowercase the rest of a word
(the per-word step of `toPascalCase`). -/
def capWord : List Char → List Char
  | [] => []
  | c :: cs => c.toUpper :: cs.map Char.toLower

/-- `toPascalCase` from `strings.go`: a string with no `_`, `-` or space only
has its first byte uppercased; otherwise separators become spaces, the string
is split into fields, and each word is title-cased. -/
def toPascalCase (s : String) : String :=
  if !(strContains s "_") && !(strContains s "-") && !(strContains s " ") then
    match s.data with
    | [] => s
    | c :: cs => ⟨c.toUpper :: cs⟩
  else
    let replaced := s.data.map (fun c => if c = '_' || c = '-' then ' ' else c)
    ⟨((fieldsAux replaced.length replaced).map capWord).flatten⟩

/-- `toConstantCase` from `strings.go`: snake case, then uppercase. -/
def toConstantCase (s : String) : String := upperStr (toSnakeCase s)

/-- Model of Go `strings.Title` (as used by `singularize` for
single-word table names): uppercase every letter that begins a maximal
letter run. -/
def titleGoAux : Bool → List Char → List Char
  | _, [] => []
  | prevLetter, c :: cs =>
    (if isLetterAZ c && !prevLetter then c.toUpper else c) :: titleGoAux (isLetterAZ c) cs

/-- Go `strings.Title`. -/
def titleGo (s : String) : String := ⟨titleGoAux false s.data⟩

/-- The irregular-plural table of `singularize`. -/
def irregularSingular (w : String) : Option String :=
  if w = "children" then some "child"
  else if w = "people" then some "person"
  else if w = "men" then some "man"
  else if w = "women" then some "woman"
  else if w = "feet" then some "foot"
  else if w = "teeth" then some "tooth"
  else if w = "geese" then some "goose"
  else if w = "mice" then some "mouse"
  else if w = "dice" then some "die"
  else none

/-- Go slice `word[:len(word)-n]` on strings (ASCII). -/
def dropLastChars (s : String) (n : Nat) : String := ⟨s.data.take (s.data.length - n)⟩

/-- `singularize` from `strings.go`. -/
def singularize (word : String) : String :=
  if word.data.length ≤ 1 then word
  else
    let lower := lowerStr word
    match irregularSingular lower with
    | some singular =>
      if upperStr word = word then upperStr singular
      else if titleGo word = word then titleGo singular
      else singular
    | none =>
      if strEndsWith lower "ies" && word.data.length > 3 then
        dropLastChars word 3 ++ "y"
      else if strEndsWith lower "ves" && word.data.length > 3 then
        dropLastChars word 3 ++ "fe"
      else if strEndsWith lower "ses" && word.data.length > 3 then
        dropLastChars word 2
      else if strEndsWith lower "es" && word.data.length > 2 then
        let beforeEs := dropLastChars word 2
        let lastChar := lowerStr ⟨beforeEs.data.drop (beforeEs.data.length - 1)⟩
        if lastChar = "x" || lastChar = "s" || lastChar = "z" ||
            strEndsWith (lowerStr beforeEs) "ch" || strEndsWith (lowerStr beforeEs) "sh" then
          beforeEs
        else if strEndsWith lower "s" then dropLastChars word 1
        else word
      else if strEndsWith lower "s" then dropLastChars word 1
      else word

/-! ## Data model (the parts of `plugin.GenerateRequest` the generator reads) -/

/-- `plugin.Identifier`: a (schema, name) pair; `catalog` is unused by the
generator. -/
structure Identifier where
  schema : String
  name : String
deriving DecidableEq, Repr

/-- The `Name` field of `plugin.Type` (the only field the generator reads). -/
structure SqlType where
  name : String
deriving DecidableEq, Repr

/-- `plugin.Column`, restricted to the fields the generator reads.
`type` is optional because `col.Type` may be nil. -/
structure Column where
  name : String
  type : Option SqlType
  notNull : Bool
  isArray : Bool
  isSqlcSlice : Bool
  embedTable : Option Identifier
  table : Option Identifier
  tableAlias : String
deriving DecidableEq, Repr

/-- `plugin.Parameter`: 1-based bind number and its column.  The generator
(`generateQueries`) dereferences `param.Column` unconditionally, so a nil
column is not modelled. -/
structure Param where
  number : Nat
  column : Column
deriving DecidableEq, Repr

/-- `plugin.Query`, restricted to the fields the generator reads. -/
structure Query where
  name : String
  text : String
  cmd : String
  params : List Param
  columns : List Column
  comments : List String
deriving DecidableEq, Repr

/-- `plugin.Table`: identifier plus columns. -/
structure Table where
  rel : Identifier
  columns : List Column
deriving DecidableEq, Repr

/-- `plugin.Schema`. -/
structure Schema where
  name : String
  tables : List Table
deriving DecidableEq, Repr

/-- `plugin.Catalog`. -/
structure Catalog where
  schemas : List Schema
deriving DecidableEq, Repr

/-- `plugin.Settings` (only `Engine` is read). -/
structure Settings where
  engine : String
deriving DecidableEq, Repr

/-- `plugin.GenerateRequest`, restricted to the fields the generator reads. -/
structure GenerateRequest where
  catalog : Option Catalog
  queries : List Query
  settings : Settings
deriving DecidableEq, Repr

/-- `crystal.GeneratorOptions`. -/
structure GeneratorOptions where
  emitJSONTags : Bool
  emitDBTags : Bool
  emitResultStructPointers : Bool
  generateConnectionManager : Bool
  generateRepositories : Bool
  emitBooleanQuestionGetters : Bool
deriving DecidableEq, Repr

/-- `crystal.Generator` (without the mutable signature map, which is threaded
explicitly as state below). -/
structure Generator where
  req : GenerateRequest
  pkg : String
  options : GeneratorOptions
deriving DecidableEq, Repr

/-! ## Type mapping (`internal/crystal/types.go`) -/

/-- `postgresType`: the PostgreSQL switch from `types.go`, written as the
same case chain; the default case is `"String"`. -/
def postgresType (sqlType : String) : String :=
  if sqlType = "int8" ∨ sqlType = "bigint" ∨ sqlType = "bigserial" then "Int64"
  else if sqlType = "int4" ∨ sqlType = "int" ∨ sqlType = "integer" ∨ sqlType = "serial" then "Int32"
  else if sqlType = "int2" ∨ sqlType = "smallint" ∨ sqlType = "smallserial" then "Int16"
  else if sqlType = "numeric" ∨ sqlType = "decimal" then "Float64"
  else if sqlType = "real" ∨ sqlType = "float4" then "Float32"
  else if sqlType = "float8" ∨ sqlType = "double precision" then "Float64"
  else if sqlType = "bool" ∨ sqlType = "boolean" then "Bool"
  else if sqlType = "text" ∨ sqlType = "varchar" ∨ sqlType = "char" ∨ sqlType = "bpchar" ∨
      sqlType = "citext" ∨ sqlType = "name" then "String"
  else if sqlType = "timestamp" ∨ sqlType = "timestamptz" ∨ sqlType = "date" ∨
      sqlType = "time" ∨ sqlType = "timetz" then "Time"
  else if sqlType = "interval" then "Time::Span"
  else if sqlType = "uuid" then "String"
  else if sqlType = "json" ∨ sqlType = "jsonb" then "JSON::Any"
  else if sqlType = "bytea" then "Bytes"
  else if sqlType = "inet" ∨ sqlType = "cidr" ∨ sqlType = "macaddr" ∨ sqlType = "macaddr8" then "String"
  else if sqlType = "point" ∨ sqlType = "line" ∨ sqlType = "lseg" ∨ sqlType = "box" ∨
      sqlType = "path" ∨ sqlType = "polygon" ∨ sqlType = "circle" then "String"
  else if sqlType = "money" then "Float64"
  else if sqlType = "bit" ∨ sqlType = "bit varying" ∨ sqlType = "varbit" then "String"
  else if sqlType = "int4range" ∨ sqlType = "int8range" ∨ sqlType = "numrange" ∨
      sqlType = "tsrange" ∨ sqlType = "tstzrange" ∨ sqlType = "daterange" then "String"
  else if sqlType = "xml" then "String"
  else if sqlType = "void" then "Nil"
  else "String"

/-- `mysqlType`: the MySQL switch from `types.go`. -/
def mysqlType (sqlType : String) : String :=
  if sqlType = "bigint" then "Int64"
  else if sqlType = "int" ∨ sqlType = "integer" ∨ sqlType = "mediumint" then "Int32"
  else if sqlType = "smallint" then "Int16"
  else if sqlType = "tinyint" then "Int8"
  else if sqlType = "decimal" ∨ sqlType = "numeric" then "Float64"
  else if sqlType = "float" then "Float32"
  else if sqlType = "double" ∨ sqlType = "double precision" ∨ sqlType = "real" then "Float64"
  else if sqlType = "bit" ∨ sqlType = "bool" ∨ sqlType = "boolean" then "Bool"
  else if sqlType = "char" ∨ sqlType = "varchar" ∨ sqlType = "text" ∨ sqlType = "tinytext" ∨
      sqlType = "mediumtext" ∨ sqlType = "longtext" then "String"
  else if sqlType = "datetime" ∨ sqlType = "timestamp" then "Time"
  else if sqlType = "date" then "Time"
  else if sqlType = "time" then "Time::Span"
  else if sqlType = "year" then "Int32"
  else if sqlType = "json" then "JSON::Any"
  else if sqlType = "binary" ∨ sqlType = "varbinary" ∨ sqlType = "blob" ∨ sqlType = "tinyblob" ∨
      sqlType = "mediumblob" ∨ sqlType = "longblob" then "Bytes"
  else if sqlType = "enum" ∨ sqlType = "set" then "String"
  else "String"

/-- `normalizeSQLiteType`: strip a parenthesized suffix, trim whitespace,
lowercase. -/
def normalizeSQLiteType (sqlType : String) : String :=
  let stripped := sqlType.data.takeWhile (· ≠ '(')
  lowerStr (trimSpaceGo ⟨stripped⟩)

/-- `isIntegerType` from `types.go`. -/
def isIntegerType (t : String) : Bool :=
  strContains t "int" || t = "integer" || t = "tinyint" || t = "smallint" ||
    t = "mediumint" || t = "bigint" || t = "int2" || t = "int8"

/-- `isRealType` from `types.go`. -/
def isRealType (t : String) : Bool :=
  t = "real" || t = "double" || t = "double precision" || t = "float"

/-- `isTextType` from `types.go`. -/
def isTextType (t : String) : Bool :=
  strContains t "char" || strContains t "clob" || strContains t "text" ||
    t = "varchar" || t = "varying character" || t = "nchar" ||
    t = "native character" || t = "nvarchar"

/-- `isBlobType` from `types.go`. -/
def isBlobType (t : String) : Bool := t = "blob" || t = ""

/-- `isNumericType` from `types.go`. -/
def isNumericType (t : String) : Bool :=
  t = "numeric" || t = "decimal" || strContains t "decimal"

/-- `isDateTimeType` from `types.go`. -/
def isDateTimeType (t : String) : Bool :=
  t = "date" || t = "datetime" || t = "timestamp" || t = "time"

/-- `sqliteType`: SQLite affinity classification from `types.go`. -/
def sqliteType (sqlType : String) : String :=
  let t := normalizeSQLiteType sqlType
  if isIntegerType t then "Int64"
  else if isRealType t then "Float64"
  else if isTextType t then "String"
  else if isBlobType t then "Bytes"
  else if isNumericType t then "Float64"
  else if t = "boolean" ∨ t = "bool" then "Bool"
  else if isDateTimeType t then "Time"
  else "String"

/-- `Generator.baseType` from `generator.go`: lowercase the raw type name
(empty when `col.Type` is nil) and dispatch on the engine; any other engine
falls back to the postgres table. -/
def baseType (g : Generator) (col : Column) : String :=
  let typeName :=
    match col.type with
    | some t => lowerStr t.name
    | none => ""
  if g.req.settings.engine = "postgresql" then postgresType typeName
  else if g.req.settings.engine = "mysql" then mysqlType typeName
  else if g.req.settings.engine = "sqlite" then sqliteType typeName
  else postgresType typeName

/-- `Generator.crystalType` from `generator.go`: wrap arrays in `Array(...)`;
a nullable non-array gets `*` (pointer option) or `?` appended. -/
def crystalType (g : Generator) (col : Column) : String :=
  let typ := baseType g col
  let typ := if col.isArray then "Array(" ++ typ ++ ")" else typ
  if !col.notNull && !col.isArray then
    if g.options.emitResultStructPointers then typ ++ "*" else typ ++ "?"
  else typ

/-! ## Go maps as association lists -/

/-- Insert-or-replace, the semantics of `m[k] = v` on a Go map: replace the
entry with key `k` if present (first occurrence; built lists never hold a
duplicate key), else append. -/
def upsert (k : String) (v : α) : List (String × α) → List (String × α)
  | [] => [(k, v)]
  | (k', v') :: rest => if k' = k then (k, v) :: rest else (k', v') :: upsert k v rest

/-- Lookup, the semantics of `v, ok := m[k]` on a Go map. -/
def lookupA (k : String) : List (String × α) → Option α
  | [] => none
  | (k', v') :: rest => if k' = k then some v' else lookupA k rest

theorem lookupA_upsert (k k' : String) (v : α) (l : List (String × α)) :
    lookupA k' (upsert k v l) = if k' = k then some v else lookupA k' l := by
  induction l with
  | nil =>
    by_cases h : k' = k
    · subst h; simp [upsert, lookupA]
    · simp [upsert, lookupA, h, Ne.symm h]
  | cons hd tl ih =>
    obtain ⟨k₀, v₀⟩ := hd
    by_cases h0 : k₀ = k
    · subst h0
      by_cases h : k' = k₀
      · subst h; simp [upsert, lookupA]
      · simp [upsert, lookupA, h, Ne.symm h]
    · by_cases h : k' = k₀
      · subst h
        simp [upsert, lookupA, h0]
      · simp [upsert, lookupA, h0, h, Ne.symm h, ih]

theorem lookupA_upsert_self (k : String) (v : α) (l : List (String × α)) :
    lookupA k (upsert k v l) = some v := by
  simp [lookupA_upsert]

theorem lookupA_upsert_ne (k k' : String) (v : α) (l : List (String × α)) (h : k' ≠ k) :
    lookupA k' (upsert k v l) = lookupA k' l := by
  simp [lookupA_upsert, h]

/-! ## Struct building (`generateModels` in `generator.go`) -/

/-- A field of a generated struct (`crystalField`). -/
structure CrystalField where
  name : String
  dbName : String
  jsonName : String
  type : String
deriving DecidableEq, Repr

/-- A generated struct (`crystalStruct`); `tableName` is empty for
query-derived structs. -/
structure CrystalStruct where
  name : String
  tableName : String
  fields : List CrystalField
deriving DecidableEq, Repr

/-- The field signature used for deduplication:
`fmt.Sprintf("%s:%s;", field.Name, field.Type)` accumulated over the field
list. -/
def fieldsSig (fields : List CrystalField) : String :=
  fields.foldl (fun acc f => acc ++ f.name ++ ":" ++ f.type ++ ";") ""

/-- The scalar field built for a column (both the table pass and the
non-embed query pass build exactly this). -/
def plainField (g : Generator) (col : Column) : CrystalField :=
  { name := toSnakeCase col.name
    dbName := col.name
    jsonName := if g.options.emitJSONTags then col.name else ""
    type := crystalType g col }

/-- The mutable generator state built by `generateModels`: the struct map
(keyed by struct name) and the signature map (`fieldSignatures` and
`g.signatureToStruct`, which receive identical inserts and therefore hold
identical contents; they are modelled as the single map `sigs`). -/
structure ModelsState where
  structs : List (String × CrystalStruct)
  sigs : List (String × String)
deriving DecidableEq, Repr

def emptyModels : ModelsState := ⟨[], []⟩

/-- First pass of `generateModels`, per table: skip system tables, build one
struct named from the singularized, capitalized table name with one plain
field per column, and register it (with its signature) when it has at least
one field. -/
def processTable (g : Generator) (st : ModelsState) (t : Table) : ModelsState :=
  if strStartsWith t.rel.name "pg_" || strStartsWith t.rel.name "sql_" ||
      t.rel.schema = "information_schema" || t.rel.schema = "pg_catalog" then st
  else
    let structName := toPascalCase (singularize t.rel.name)
    let fields := t.columns.map (plainField g)
    let sig := fieldsSig fields
    if fields.length > 0 then
      { structs := upsert structName ⟨structName, t.rel.name, fields⟩ st.structs
        sigs := upsert sig structName st.sigs }
    else st

/-- First pass of `generateModels`, per schema: `information_schema` and
`pg_catalog` are skipped entirely. -/
def processSchema (g : Generator) (st : ModelsState) (s : Schema) : ModelsState :=
  if s.name = "information_schema" || s.name = "pg_catalog" then st
  else s.tables.foldl (processTable g) st

/-- Append a column to its group, keeping first-appearance key order.
This models `tableColumns[key] = append(tableColumns[key], col)`. -/
def groupAppend (key : String) (c : Column) :
    List (String × List Column) → List (String × List Column)
  | [] => [(key, [c])]
  | (k, cs) :: rest =>
    if k = key then (k, cs ++ [c]) :: rest else (k, cs) :: groupAppend key c rest

/-- The column classification loop of the query pass: group embed columns by
their embed table and table-qualified columns by table name (or alias);
other columns are standalone.  Returns (groups, standalone, hasEmbeds).
The Go `tableColumns` map is iterated later; the model fixes
first-appearance key order (see the note on `runRepositories` about Go map
iteration order). -/
def classifyStep (acc : List (String × List Column) × List Column × Bool)
    (col : Column) : List (String × List Column) × List Column × Bool :=
  match acc with
  | (m, standalone, hasEmb) =>
    match col.embedTable with
    | some et => (groupAppend et.name col m, standalone, true)
    | none =>
      match col.table with
      | some t =>
        if t.name ≠ "" then
          let key := if col.tableAlias ≠ "" then col.tableAlias else t.name
          (groupAppend key col m, standalone, hasEmb)
        else (m, standalone ++ [col], hasEmb)
      | none => (m, standalone ++ [col], hasEmb)

def classifyColumns (cols : List Column) :
    List (String × List Column) × List Column × Bool :=
  cols.foldl classifyStep ([], [], false)

/-- The catalog scan that finds the struct name for an embedded table:
first table whose name matches, searched schema by schema; falls back to
the singularized, capitalized table name. -/
def scanTables (tn : String) : List Table → String
  | [] => ""
  | t :: rest => if t.rel.name = tn then toPascalCase (singularize t.rel.name) else scanTables tn rest

def scanSchemas (tn : String) : List Schema → String
  | [] => ""
  | s :: rest =>
    let r := scanTables tn s.tables
    if r = "" then scanSchemas tn rest else r

def findTableStructName (cat : Option Catalog) (tn : String) : String :=
  let fromCat := match cat with
    | some c => scanSchemas tn c.schemas
    | none => ""
  if fromCat = "" then toPascalCase (singularize tn) else fromCat

/-- The embedded field built for one group of the query pass: only a group
whose first column carries the embed marker yields a field; its type is the
embedded table struct name, suffixed `?` when the uppercased query text
contains `LEFT JOIN` (or `RIGHT JOIN`, which enables the check) and, for
`LEFT JOIN`, does not contain `FROM ` followed by the uppercased table
name. -/
def embedFieldForGroup (g : Generator) (qtext : String) (tn : String) :
    List Column → Option CrystalField
  | [] => none
  | c :: _ =>
    if c.embedTable.isSome then
      let structName := findTableStructName g.req.catalog tn
      let up := upperStr qtext
      let nullable := strContains up "LEFT JOIN" || strContains up "RIGHT JOIN"
      let fieldType :=
        if nullable then
          if strContains up "LEFT JOIN" then
            if !(strContains up ("FROM " ++ upperStr tn)) then structName ++ "?"
            else structName
          else structName
        else structName
      some { name := toSnakeCase (singularize tn)
             dbName := toSnakeCase (singularize tn)
             jsonName := ""
             type := fieldType }
    else none

/-- The field list built for a query in the second pass of `generateModels`:
embed queries get one field per embed group followed by the standalone
columns; plain queries get one plain field per result column. -/
def queryFields (g : Generator) (q : Query) : List CrystalField :=
  match classifyColumns q.columns with
  | (groups, standalone, hasEmb) =>
    if hasEmb then
      (groups.filterMap fun gr => embedFieldForGroup g q.text gr.1 gr.2) ++
        standalone.map (plainField g)
    else q.columns.map (plainField g)

/-- Second pass of `generateModels`, per query: skip result-less commands and
queries without columns; reuse an existing struct when the signature is
already registered, otherwise register a new struct named from the query
(`Row`-suffixed for `:one`/`:many`). -/
def processQuery (g : Generator) (st : ModelsState) (q : Query) : ModelsState :=
  if q.columns.length = 0 then st
  else if q.cmd = ":exec" || q.cmd = ":execresult" || q.cmd = ":execrows" || q.cmd = ":copyfrom" then st
  else
    let fields := queryFields g q
    let sig := fieldsSig fields
    match lookupA sig st.sigs with
    | some _ => st
    | none =>
      let structName :=
        toPascalCase q.name ++ (if q.cmd = ":one" || q.cmd = ":many" then "Row" else "")
      { structs := upsert structName ⟨structName, "", fields⟩ st.structs
        sigs := upsert sig structName st.sigs }

/-- The table pass of `generateModels` over the whole catalog (no catalog or
no schemas means `generateModels` is never called by `Generate`). -/
def runTables (g : Generator) : ModelsState :=
  match g.req.catalog with
  | some cat => if cat.schemas.length > 0 then cat.schemas.foldl (processSchema g) emptyModels
                else emptyModels
  | none => emptyModels

/-- The full `generateModels` state: table pass then query pass (both run
only when `Generate` calls `generateModels` at all, i.e. when the catalog
has at least one schema). -/
def runModels (g : Generator) : ModelsState :=
  match g.req.catalog with
  | some cat => if cat.schemas.length > 0 then
      g.req.queries.foldl (processQuery g) (cat.schemas.foldl (processSchema g) emptyModels)
    else emptyModels
  | none => emptyModels

/-- Byte-wise lexicographic order on strings (what Go string `<` compares;
identical to code-point order for the ASCII names involved). -/
def charListLt : List Char → List Char → Bool
  | [], [] => false
  | [], _ :: _ => true
  | _ :: _, [] => false
  | a :: as, b :: bs =>
    if a.toNat < b.toNat then true
    else if b.toNat < a.toNat then false
    else charListLt as bs

def strLtGo (a b : String) : Bool := charListLt a.data b.data

/-- Strict name ordering used by `sort.Slice` over the struct list. -/
def structNameLt (a b : CrystalStruct) : Bool := strLtGo a.name b.name

/-- Stable insertion: place `x` before the first element not strictly below
it.  Used to model both `sort.SliceStable` (stable by construction) and
`sort.Slice` on lists with pairwise-distinct keys (where any correct sort
is unique). -/
def insertS (less : α → α → Bool) (x : α) : List α → List α
  | [] => [x]
  | y :: ys => if less y x then y :: insertS less x ys else x :: y :: ys

def sortS (less : α → α → Bool) : List α → List α
  | [] => []
  | x :: xs => insertS less x (sortS less xs)

/-- The emitted struct list of `models.cr`: the struct map values sorted by
name (`sort.Slice` at generator.go:308). -/
def emittedModels (g : Generator) : List CrystalStruct :=
  sortS structNameLt ((runModels g).structs.map (·.2))

/-- `getStructNameForQuery` from `generator.go`: single-column queries get no
struct; otherwise look the plain-column signature up in the signature map,
falling back to a query-name-derived name. -/
def getStructNameForQuery (g : Generator) (sigs : List (String × String)) (q : Query) : String :=
  if q.columns.length ≤ 1 then ""
  else
    let sig := fieldsSig (q.columns.map (plainField g))
    match lookupA sig sigs with
    | some n => n
    | none => toPascalCase q.name ++ (if q.cmd = ":one" || q.cmd = ":many" then "Row" else "")

/-! ## Query methods (`generateQueries` in `generator.go`, helpers in
`templates.go`) -/

/-- `crystalParam`. -/
structure CrystalParam where
  name : String
  type : String
  position : Nat
deriving DecidableEq, Repr

/-- `sqlcSliceParam`. -/
structure SliceParam where
  name : String
  placeholder : String
deriving DecidableEq, Repr

/-- The per-parameter step of the `generateQueries` loop: name from the
column (else `argN`), type from `crystalType`, position from the bind
number; a `sqlc.slice()` parameter has its type forced to `Array(base)` and
is recorded in the slice-param list. -/
def mkQueryParam (g : Generator) (p : Param) : CrystalParam :=
  let pname := if p.column.name ≠ "" then toSnakeCase p.column.name
               else "arg" ++ toString p.number
  if p.column.isSqlcSlice then
    { name := pname, type := "Array(" ++ baseType g p.column ++ ")", position := p.number }
  else
    { name := pname, type := crystalType g p.column, position := p.number }

/-- The parameter-building loop of `generateQueries`: accumulated params,
slice params and the `hasSlice` flag. -/
def buildParams (g : Generator) (q : Query) :
    List CrystalParam × List SliceParam × Bool :=
  q.params.foldl
    (fun acc p =>
      match acc with
      | (ps, sps, hs) =>
        let cp := mkQueryParam g p
        if p.column.isSqlcSlice then
          (ps ++ [cp], sps ++ [⟨cp.name, "$" ++ toString p.number⟩], true)
        else (ps ++ [cp], sps, hs))
    ([], [], false)

/-- Is a parameter "optional" for signature purposes: its type string ends
in `?` (the test used by the sort comparator and by `paramList`). -/
def isOptParam (p : CrystalParam) : Bool := strEndsWith p.type "?"

/-- The comparator given to `sort.SliceStable` in `generateQueries` (and in
`buildCrystalQuery`): required before optional, then by original position. -/
def goLess (a b : CrystalParam) : Bool :=
  if isOptParam a ≠ isOptParam b then !isOptParam a
  else a.position < b.position

/-- Position-only comparator used by `paramNames` (templates.go). -/
def posLess (a b : CrystalParam) : Bool := a.position < b.position

/-- `paramNames` from `templates.go`, as the ordered name list: sort a copy
of the (signature-ordered) parameters back by original position
(`sort.SliceStable`, modelled by the stable `sortS`), then take the names. -/
def paramNamesList (params : List CrystalParam) : List String :=
  (sortS posLess params).map (·.name)

/-- `paramNames` from `templates.go` (the joined form). -/
def paramNames (params : List CrystalParam) : String :=
  if params.length = 0 then "" else String.intercalate ", " (paramNamesList params)

/-- The per-parameter rendering of `paramList` from `templates.go`: a
nullable (`?`-typed) parameter gets a `nil` default. -/
def paramListEntry (p : CrystalParam) : String :=
  if strEndsWith p.type "?" then p.name ++ " : " ++ p.type ++ " = nil"
  else p.name ++ " : " ++ p.type

/-- `paramList` from `templates.go`. -/
def paramList (params : List CrystalParam) : String :=
  if params.length = 0 then "" else String.intercalate ", " (params.map paramListEntry)

/-- `crystalQuery` (the fields relevant to the verified claims). -/
structure CrystalQuery where
  name : String
  sql : String
  sourceName : String
  cmd : String
  constantName : String
  params : List CrystalParam
  returnType : String
  resultStruct : String
  singleColumnType : String
  usesSqlcSlice : Bool
  sliceParams : List SliceParam
deriving DecidableEq, Repr

instance : Inhabited Column := ⟨⟨"", none, false, false, false, none, none, ""⟩⟩

/-- The return-type switch shared by `generateQueries` and
`buildCrystalQuery`, applied to a partially built query. -/
def setReturnType (g : Generator) (sigs : List (String × String)) (q : Query)
    (cq : CrystalQuery) : CrystalQuery :=
  let cq :=
    if q.cmd = ":one" then
      if q.columns.length = 1 then
        { cq with returnType := (crystalType g (q.columns.headI)) ++ "?" }
      else { cq with returnType := getStructNameForQuery g sigs q ++ "?" }
    else if q.cmd = ":many" then
      if q.columns.length = 1 then
        { cq with returnType := "Array(" ++ crystalType g (q.columns.headI) ++ ")"
                  singleColumnType := crystalType g (q.columns.headI) }
      else { cq with returnType := "Array(" ++ getStructNameForQuery g sigs q ++ ")" }
    else if q.cmd = ":exec" then { cq with returnType := "Nil" }
    else if q.cmd = ":execresult" then { cq with returnType := "DB::ExecResult" }
    else if q.cmd = ":execrows" then { cq with returnType := "Int64" }
    else if q.cmd = ":execlastid" then { cq with returnType := "Int64" }
    else if q.cmd = ":copyfrom" then { cq with returnType := "Int64" }
    else cq
  if q.columns.length > 1 && (q.cmd = ":one" || q.cmd = ":many") then
    { cq with resultStruct := getStructNameForQuery g sigs q }
  else if q.columns.length = 1 && q.cmd = ":one" then
    { cq with singleColumnType := crystalType g (q.columns.headI) }
  else cq

/-- One iteration of the `generateQueries` loop: build the parameters, sort
them required-first (stable), and resolve return types against the
signature map built by `generateModels`. -/
def buildQueryGQ (g : Generator) (sigs : List (String × String)) (q : Query) : CrystalQuery :=
  match buildParams g q with
  | (ps, sps, hasSlice) =>
    let cq : CrystalQuery :=
      { name := toSnakeCase q.name
        sql := q.text
        sourceName := q.name
        cmd := q.cmd
        constantName := toConstantCase q.name
        params := sortS goLess ps
        returnType := ""
        resultStruct := ""
        singleColumnType := ""
        usesSqlcSlice := hasSlice
        sliceParams := sps }
    setReturnType g sigs q cq

/-- `needsSliceExpansion` from `templates.go`. -/
def needsSliceExpansion (cq : CrystalQuery) (engine : String) : Bool :=
  cq.usesSqlcSlice && (engine = "mysql" || engine = "sqlite")

/-- The order in which the slice-expansion branch of the queries template
appends bound values to `query_params` (templates.go lines 225-232): it
ranges over `.Params`, i.e. the signature-sorted parameter list, each array
parameter contributing its flattened elements and each scalar its value.
The name at an index stands for the value(s) bound from that parameter. -/
def sliceBranchBindNames (cq : CrystalQuery) : List String := cq.params.map (·.name)

/-! ## Runtime semantics of the emitted slice-expansion code

`expandSliceParams` (templates.go) emits, for each slice parameter `name`,
the Crystal code

    if name.empty?
      raise ArgumentError.new(...)
    end
    placeholders_name = name.size.times.map { qmark }.join(", ")
    sql = sql.gsub(marker, placeholders_name)

ahead of the database call.  The following definitions model that emitted
code: `crystalGsub` is Crystal `String#gsub(String, String)` (replace every
non-overlapping occurrence, left to right), and `runSliceMethod` runs the
expansion blocks in order and only then applies the database call. -/

/-- Fuelled worker for `crystalGsub`. -/
def gsubAux : Nat → List Char → List Char → List Char → List Char
  | 0, s, _, _ => s
  | _ + 1, [], _, _ => []
  | fuel + 1, c :: t, pat, rep =>
    if pat.isPrefixOf (c :: t) && !pat.isEmpty then
      rep ++ gsubAux fuel (List.drop pat.length (c :: t)) pat rep
    else c :: gsubAux fuel t pat rep

/-- Number of replacements `crystalGsub` performs (same recursion as
`gsubAux`). -/
def gsubOccAux : Nat → List Char → List Char → Nat
  | 0, _, _ => 0
  | _ + 1, [], _ => 0
  | fuel + 1, c :: t, pat =>
    if pat.isPrefixOf (c :: t) && !pat.isEmpty then
      1 + gsubOccAux fuel (List.drop pat.length (c :: t)) pat
    else gsubOccAux fuel t pat

/-- Crystal `String#gsub(pattern, replacement)` for string patterns. -/
def crystalGsub (s pat rep : String) : String :=
  ⟨gsubAux s.data.length s.data pat.data rep.data⟩

/-- Number of occurrences `crystalGsub` replaces in `s`. -/
def gsubOcc (s pat : String) : Nat := gsubOccAux s.data.length s.data pat.data

/-- The slice marker rewritten by the emitted code:
`"/*SLICE:" + name + "*/?"`. -/
def sliceMarker (pname : String) : String := "/*SLICE:" ++ pname ++ "*/?"

/-- `name.size.times.map { qmark }.join(", ")` for a collection of size `n`:
`n` question marks joined by `", "`. -/
def placeholdersFor : Nat → String
  | 0 => ""
  | 1 => "?"
  | n + 2 => "?" ++ ", " ++ placeholdersFor (n + 1)

/-- One emitted expansion block, for slice parameter `pname` bound to a
collection of `n` elements: raise (return the error) when empty, else
rewrite the marker. -/
def expandOneSlice (sql : String) (pname : String) (n : Nat) : Except String String :=
  if n = 0 then
    Except.error ("slice parameter " ++ squote ++ pname ++ squote ++ " cannot be empty")
  else Except.ok (crystalGsub sql (sliceMarker pname) (placeholdersFor n))
where squote : String := ⟨['\'']⟩

/-- All emitted expansion blocks, in order. -/
def expandAll : String → List (String × Nat) → Except String String
  | sql, [] => Except.ok sql
  | sql, (pname, n) :: rest =>
    match expandOneSlice sql pname n with
    | Except.error e => Except.error e
    | Except.ok sql' => expandAll sql' rest

/-- The emitted method body around the database call: expansion first, the
database call (`db`, abstract) only on success. -/
def runSliceMethod (db : String → α) (sql : String) (slices : List (String × Nat)) :
    Except String α :=
  (expandAll sql slices).map db

/-! ## Repository generation (`generateRepositories` in `generator.go`) -/

/-- The per-parameter step of `buildCrystalQuery` (the repository variant):
unlike `generateQueries`, the fallback name and the position use the
parameter INDEX (1-based), not the bind number; the slice placeholder still
uses the bind number. -/
def mkRepoParam (g : Generator) (idx : Nat) (p : Param) : CrystalParam :=
  let pname := if p.column.name ≠ "" then toSnakeCase p.column.name
               else "arg" ++ toString (idx + 1)
  if p.column.isSqlcSlice then
    { name := pname, type := "Array(" ++ baseType g p.column ++ ")", position := idx + 1 }
  else
    { name := pname, type := crystalType g p.column, position := idx + 1 }

/-- The parameter loop of `buildCrystalQuery`. -/
def buildRepoParams (g : Generator) (q : Query) :
    List CrystalParam × List SliceParam × Bool :=
  (q.params.enum.foldl
    (fun acc pi =>
      match acc, pi with
      | (ps, sps, hs), (idx, p) =>
        let cp := mkRepoParam g idx p
        if p.column.isSqlcSlice then
          (ps ++ [cp], sps ++ [⟨cp.name, "$" ++ toString p.number⟩], true)
        else (ps ++ [cp], sps, hs))
    ([], [], false))

/-- `buildCrystalQuery` from `generator.go`. -/
def buildCrystalQuery (g : Generator) (sigs : List (String × String)) (q : Query) : CrystalQuery :=
  match buildRepoParams g q with
  | (ps, sps, hasSlice) =>
    let cq : CrystalQuery :=
      { name := toSnakeCase q.name
        sql := q.text
        sourceName := ""
        cmd := q.cmd
        constantName := toConstantCase q.name
        params := sortS goLess ps
        returnType := ""
        resultStruct := ""
        singleColumnType := ""
        usesSqlcSlice := hasSlice
        sliceParams := sps }
    setReturnType g sigs q cq

/-- `extractTableName` from `generator.go`: lexical table-name heuristic over
the lowercased SQL text. -/
def extractTableName (qtext : String) : String :=
  let sql := lowerStr qtext
  if strContains sql "insert into" then
    match splitOnSub sql "insert into" with
    | _ :: p1 :: _ =>
      match fieldsGo (trimSpaceGo p1) with
      | f :: _ => trimCharGo f '('
      | [] => extractTableNameRest sql
    | _ => extractTableNameRest sql
  else extractTableNameRest sql
where
  extractTableNameRest (sql : String) : String :=
    if strStartsWith (trimSpaceGo sql) "update " then
      match splitOnSub sql "update" with
      | _ :: p1 :: _ =>
        match fieldsGo (trimSpaceGo p1) with
        | f :: _ => f
        | [] => extractTableNameRest2 sql
      | _ => extractTableNameRest2 sql
    else extractTableNameRest2 sql
  extractTableNameRest2 (sql : String) : String :=
    if strContains sql "delete from" then
      match splitOnSub sql "delete from" with
      | _ :: p1 :: _ =>
        match fieldsGo (trimSpaceGo p1) with
        | f :: _ => f
        | [] => extractTableNameRest3 sql
      | _ => extractTableNameRest3 sql
    else extractTableNameRest3 sql
  extractTableNameRest3 (sql : String) : String :=
    if strContains sql "from" then
      match splitOnSub sql "from" with
      | _ :: p1 :: _ =>
        match fieldsGo (trimSpaceGo p1) with
        | f :: _ => if strContains f " as " then
                      match splitOnSub f " as " with
                      | t :: _ => t
                      | [] => f
                    else f
        | [] => ""
      | _ => ""
    else ""

/-- `simplifyMethodName` from `generator.go`. -/
def simplifyMethodName (methodName tableName : String) : String :=
  let snakeMethod := toSnakeCase methodName
  let snakeTable := toSnakeCase tableName
  let singularTable := if strEndsWith snakeTable "s" then dropLastChars snakeTable 1 else snakeTable
  if strStartsWith snakeMethod ("get_" ++ singularTable) then
    "find" ++ ⟨snakeMethod.data.drop ("get_" ++ singularTable).data.length⟩
  else if strStartsWith snakeMethod ("list_" ++ snakeTable ++ "_by_") then
    "by_" ++ ⟨snakeMethod.data.drop ("list_" ++ snakeTable ++ "_by_").data.length⟩
  else if snakeMethod = "list_" ++ snakeTable then "all"
  else if strStartsWith snakeMethod ("create_" ++ singularTable) then "create"
  else if strStartsWith snakeMethod ("update_" ++ singularTable) then "update"
  else if strStartsWith snakeMethod ("delete_" ++ singularTable) then "delete"
  else if strStartsWith snakeMethod (snakeTable ++ "_") then
    ⟨snakeMethod.data.drop (snakeTable.data.length + 1)⟩
  else if strStartsWith snakeMethod (singularTable ++ "_") then
    ⟨snakeMethod.data.drop (singularTable.data.length + 1)⟩
  else methodName

/-- The `tableQueries` map built by `generateRepositories`, in
first-appearance key order: each query is converted by `buildCrystalQuery`
and grouped under its extracted table name (queries with no extractable
table are dropped). -/
def repoTableQueries (g : Generator) (sigs : List (String × String)) :
    List (String × List CrystalQuery) :=
  g.req.queries.foldl
    (fun m q =>
      let cq := buildCrystalQuery g sigs q
      let tn := extractTableName q.text
      if tn ≠ "" then
        match lookupA tn m with
        | some qs => upsert tn (qs ++ [cq]) m
        | none => upsert tn [cq] m
      else m)
    []

/-- The data handed to the repository template for one file (the rendered
text is a fixed function of this data). -/
structure RepoFileData where
  pkg : String
  tableName : String
  methods : List (String × CrystalQuery)
deriving DecidableEq, Repr

/-- A generated file: name plus payload. -/
structure RepoFile where
  name : String
  data : RepoFileData
deriving DecidableEq, Repr

/-- `generateRepositoryForTable`: file name and template payload (method
names simplified against the table name). -/
def repoFileForTable (g : Generator) (tn : String) (qs : List CrystalQuery) : RepoFile :=
  { name := "repositories/" ++ toSnakeCase tn ++ "_repository.cr"
    data := { pkg := g.pkg
              tableName := toPascalCase tn
              methods := qs.map fun cq => (simplifyMethodName cq.name tn, cq) } }

/-- `generateRepositories`: one file per entry of the `tableQueries` Go map.
The Go `for tableName, queries := range tableQueries` loop iterates in an
UNSPECIFIED (runtime-randomized) order; the model therefore takes the
iteration order as an explicit argument `order` (admissible iff it is a
permutation of the map keys). -/
def runRepositories (g : Generator) (sigs : List (String × String)) (order : List String) :
    List RepoFile :=
  order.filterMap fun tn =>
    (lookupA tn (repoTableQueries g sigs)).map (repoFileForTable g tn)

/-! ## Option defaults (`internal/codegen/codegen.go`) -/

/-- The parsed plugin options (`codegen.Options` after JSON unmarshalling;
absent fields are Go zero values). -/
structure PluginOptions where
  module : String
  emitJSONTags : Bool
  emitDBTags : Bool
  emitResultStructPointers : Bool
  generateConnectionManager : Bool
  generateRepositories : Bool
  emitBooleanQuestionGetters : Bool
deriving DecidableEq, Repr

/-- The defaulting logic of `codegen.generate`: empty module becomes `Db`;
when neither tag option is set, DB tags are switched on. -/
def applyDefaults (o : PluginOptions) : String × GeneratorOptions :=
  let moduleName := if o.module = "" then "Db" else o.module
  let emitDBTags := if !o.emitJSONTags && !o.emitDBTags then true else o.emitDBTags
  (moduleName,
    { emitJSONTags := o.emitJSONTags
      emitDBTags := emitDBTags
      emitResultStructPointers := o.emitResultStructPointers
      generateConnectionManager := o.generateConnectionManager
      generateRepositories := o.generateRepositories
      emitBooleanQuestionGetters := o.emitBooleanQuestionGetters })

/-- `isBooleanType` from `templates.go`. -/
def isBooleanType (t : String) : Bool := t = "Bool" || t = "Bool?"

/-- Go `%q` quoting of a field name (escaping backslashes and quotes; the
names seen here contain neither). -/
def goQuote (s : String) : String :=
  "\"" ++ ⟨s.data.flatMap (fun c => if c = '"' || c = '\\' then ['\\', c] else [c])⟩ ++ "\""

/-- The lines the models template emits for one field (modelsTemplateStr,
templates.go): a JSON tag when enabled and a JSON name is set, a DB tag
when enabled and the column name differs from the Crystal name, then the
getter declaration. -/
def renderModelsField (opts : GeneratorOptions) (f : CrystalField) : List String :=
  (if opts.emitJSONTags && f.jsonName ≠ "" then
    ["@[JSON::Field(key: " ++ goQuote f.jsonName ++ ")]"] else []) ++
  (if opts.emitDBTags && f.dbName ≠ f.name then
    ["@[DB::Field(key: " ++ goQuote f.dbName ++ ")]"] else []) ++
  [(if opts.emitBooleanQuestionGetters && isBooleanType f.type then "getter? " else "getter ") ++
    f.name ++ " : " ++ f.type]

/-! ## Generic facts about the stable sort model -/

theorem insertS_perm (less : α → α → Bool) (x : α) (l : List α) :
    (insertS less x l).Perm (x :: l) := by
  induction l with
  | nil => simp [insertS]
  | cons y ys ih =>
    unfold insertS
    by_cases h : less y x
    · simp only [h, if_true]
      exact (ih.cons y).trans (List.Perm.swap x y ys)
    · simp [h]

theorem sortS_perm (less : α → α → Bool) (l : List α) : (sortS less l).Perm l := by
  induction l with
  | nil => simp [sortS]
  | cons x xs ih => exact (insertS_perm less x _).trans (ih.cons x)

theorem insertS_pairwise (less : α → α → Bool)
    (hasym : ∀ a b, less a b = true → less b a = false)
    (hneg : ∀ a b c, less b a = false → less c b = false → less c a = false)
    (x : α) (l : List α) (h : l.Pairwise fun a b => less b a = false) :
    (insertS less x l).Pairwise fun a b => less b a = false := by
  induction l with
  | nil => simp [insertS]
  | cons y ys ih =>
    rw [List.pairwise_cons] at h
    obtain ⟨hy, hys⟩ := h
    unfold insertS
    by_cases hc : less y x
    · simp only [hc, if_true]
      rw [List.pairwise_cons]
      refine ⟨fun z hz => ?_, ih hys⟩
      rcases List.mem_cons.mp ((insertS_perm less x ys).mem_iff.mp hz) with rfl | hz'
      · exact hasym _ _ hc
      · exact hy z hz'
    · have hc' : less y x = false := by simpa using hc
      rw [if_neg (by simp [hc'])]
      rw [List.pairwise_cons]
      refine ⟨fun z hz => ?_, List.Pairwise.cons hy hys⟩
      rcases List.mem_cons.mp hz with rfl | hz'
      · exact hc'
      · exact hneg _ _ _ hc' (hy z hz')

theorem sortS_pairwise (less : α → α → Bool)
    (hasym : ∀ a b, less a b = true → less b a = false)
    (hneg : ∀ a b c, less b a = false → less c b = false → less c a = false)
    (l : List α) :
    (sortS less l).Pairwise fun a b => less b a = false := by
  induction l with
  | nil => simp [sortS]
  | cons x xs ih => exact insertS_pairwise less hasym hneg x _ ih

theorem goLess_asym : ∀ a b, goLess a b = true → goLess b a = false := by
  intro a b
  unfold goLess
  rcases ha : isOptParam a <;> rcases hb : isOptParam b <;>
    simp [ha, hb] <;> omega

theorem goLess_negtrans :
    ∀ a b c, goLess b a = false → goLess c b = false → goLess c a = false := by
  intro a b c
  unfold goLess
  rcases ha : isOptParam a <;> rcases hb : isOptParam b <;> rcases hc : isOptParam c <;>
    simp [ha, hb, hc] <;> omega

theorem posLess_asym : ∀ a b : CrystalParam, posLess a b = true → posLess b a = false := by
  intro a b
  unfold posLess
  simp
  omega

theorem posLess_negtrans :
    ∀ a b c : CrystalParam, posLess b a = false → posLess c b = false → posLess c a = false := by
  intro a b c
  unfold posLess
  simp
  omega

/-! ## Facts about the type mapper -/

theorem strData_append (s t : String) : (s ++ t).data = s.data ++ t.data := rfl

/-- The output vocabulary of `postgresType`. -/
def pgOutputs : List String :=
  ["Int64", "Int32", "Int16", "Float64", "Float32", "Bool", "String",
   "Time", "Time::Span", "JSON::Any", "Bytes", "Nil"]

/-- The raw names `postgresType` recognizes (every other name falls to the
default `String` case). -/
def postgresKnown : List String :=
  ["int8", "bigint", "bigserial", "int4", "int", "integer", "serial",
   "int2", "smallint", "smallserial", "numeric", "decimal", "real",
   "float4", "float8", "double precision", "bool", "boolean", "text",
   "varchar", "char", "bpchar", "citext", "name", "timestamp",
   "timestamptz", "date", "time", "timetz", "interval", "uuid", "json",
   "jsonb", "bytea", "inet", "cidr", "macaddr", "macaddr8", "point",
   "line", "lseg", "box", "path", "polygon", "circle", "money", "bit",
   "bit varying", "varbit", "int4range", "int8range", "numrange",
   "tsrange", "tstzrange", "daterange", "xml", "void"]

/-- The raw names `mysqlType` recognizes. -/
def mysqlKnown : List String :=
  ["bigint", "int", "integer", "mediumint", "smallint", "tinyint",
   "decimal", "numeric", "float", "double", "double precision", "real",
   "bit", "bool", "boolean", "char", "varchar", "text", "tinytext",
   "mediumtext", "longtext", "datetime", "timestamp", "date", "time",
   "year", "json", "binary", "varbinary", "blob", "tinyblob",
   "mediumblob", "longblob", "enum", "set"]

/-- The affinity classification used by `sqliteType` before its default
case. -/
def sqliteRecognized (t : String) : Bool :=
  isIntegerType t || isRealType t || isTextType t || isBlobType t ||
    isNumericType t || t = "boolean" || t = "bool" || isDateTimeType t

theorem postgresType_mem (s : String) : postgresType s ∈ pgOutputs := by
  unfold postgresType
  by_cases h1 : s = "int8" ∨ s = "bigint" ∨ s = "bigserial"
  · rw [if_pos h1]; decide
  rw [if_neg h1]
  by_cases h2 : s = "int4" ∨ s = "int" ∨ s = "integer" ∨ s = "serial"
  · rw [if_pos h2]; decide
  rw [if_neg h2]
  by_cases h3 : s = "int2" ∨ s = "smallint" ∨ s = "smallserial"
  · rw [if_pos h3]; decide
  rw [if_neg h3]
  by_cases h4 : s = "numeric" ∨ s = "decimal"
  · rw [if_pos h4]; decide
  rw [if_neg h4]
  by_cases h5 : s = "real" ∨ s = "float4"
  · rw [if_pos h5]; decide
  rw [if_neg h5]
  by_cases h6 : s = "float8" ∨ s = "double precision"
  · rw [if_pos h6]; decide
  rw [if_neg h6]
  by_cases h7 : s = "bool" ∨ s = "boolean"
  · rw [if_pos h7]; decide
  rw [if_neg h7]
  by_cases h8 : s = "text" ∨ s = "varchar" ∨ s = "char" ∨ s = "bpchar" ∨ s = "citext" ∨ s = "name"
  · rw [if_pos h8]; decide
  rw [if_neg h8]
  by_cases h9 : s = "timestamp" ∨ s = "timestamptz" ∨ s = "date" ∨ s = "time" ∨ s = "timetz"
  · rw [if_pos h9]; decide
  rw [if_neg h9]
  by_cases h10 : s = "interval"
  · rw [if_pos h10]; decide
  rw [if_neg h10]
  by_cases h11 : s = "uuid"
  · rw [if_pos h11]; decide
  rw [if_neg h11]
  by_cases h12 : s = "json" ∨ s = "jsonb"
  · rw [if_pos h12]; decide
  rw [if_neg h12]
  by_cases h13 : s = "bytea"
  · rw [if_pos h13]; decide
  rw [if_neg h13]
  by_cases h14 : s = "inet" ∨ s = "cidr" ∨ s = "macaddr" ∨ s = "macaddr8"
  · rw [if_pos h14]; decide
  rw [if_neg h14]
  by_cases h15 : s = "point" ∨ s = "line" ∨ s = "lseg" ∨ s = "box" ∨ s = "path" ∨ s = "polygon" ∨ s = "circle"
  · rw [if_pos h15]; decide
  rw [if_neg h15]
  by_cases h16 : s = "money"
  · rw [if_pos h16]; decide
  rw [if_neg h16]
  by_cases h17 : s = "bit" ∨ s = "bit varying" ∨ s = "varbit"
  · rw [if_pos h17]; decide
  rw [if_neg h17]
  by_cases h18 : s = "int4range" ∨ s = "int8range" ∨ s = "numrange" ∨ s = "tsrange" ∨ s = "tstzrange" ∨ s = "daterange"
  · rw [if_pos h18]; decide
  rw [if_neg h18]
  by_cases h19 : s = "xml"
  · rw [if_pos h19]; decide
  rw [if_neg h19]
  by_cases h20 : s = "void"
  · rw [if_pos h20]; decide
  rw [if_neg h20]
  decide

/-- The output vocabulary of `mysqlType`. -/
def myOutputs : List String :=
  ["Int64", "Int32", "Int16", "Int8", "Float64", "Float32", "Bool",
   "String", "Time", "Time::Span", "JSON::Any", "Bytes"]

theorem mysqlType_mem (s : String) : mysqlType s ∈ myOutputs := by
  unfold mysqlType
  by_cases h1 : s = "bigint"
  · rw [if_pos h1]; decide
  rw [if_neg h1]
  by_cases h2 : s = "int" ∨ s = "integer" ∨ s = "mediumint"
  · rw [if_pos h2]; decide
  rw [if_neg h2]
  by_cases h3 : s = "smallint"
  · rw [if_pos h3]; decide
  rw [if_neg h3]
  by_cases h4 : s = "tinyint"
  · rw [if_pos h4]; decide
  rw [if_neg h4]
  by_cases h5 : s = "decimal" ∨ s = "numeric"
  · rw [if_pos h5]; decide
  rw [if_neg h5]
  by_cases h6 : s = "float"
  · rw [if_pos h6]; decide
  rw [if_neg h6]
  by_cases h7 : s = "double" ∨ s = "double precision" ∨ s = "real"
  · rw [if_pos h7]; decide
  rw [if_neg h7]
  by_cases h8 : s = "bit" ∨ s = "bool" ∨ s = "boolean"
  · rw [if_pos h8]; decide
  rw [if_neg h8]
  by_cases h9 : s = "char" ∨ s = "varchar" ∨ s = "text" ∨ s = "tinytext" ∨ s = "mediumtext" ∨ s = "longtext"
  · rw [if_pos h9]; decide
  rw [if_neg h9]
  by_cases h10 : s = "datetime" ∨ s = "timestamp"
  · rw [if_pos h10]; decide
  rw [if_neg h10]
  by_cases h11 : s = "date"
  · rw [if_pos h11]; decide
  rw [if_neg h11]
  by_cases h12 : s = "time"
  · rw [if_pos h12]; decide
  rw [if_neg h12]
  by_cases h13 : s = "year"
  · rw [if_pos h13]; decide
  rw [if_neg h13]
  by_cases h14 : s = "json"
  · rw [if_pos h14]; decide
  rw [if_neg h14]
  by_cases h15 : s = "binary" ∨ s = "varbinary" ∨ s = "blob" ∨ s = "tinyblob" ∨ s = "mediumblob" ∨ s = "longblob"
  · rw [if_pos h15]; decide
  rw [if_neg h15]
  by_cases h16 : s = "enum" ∨ s = "set"
  · rw [if_pos h16]; decide
  rw [if_neg h16]
  decide

theorem mysqlType_ne_empty (s : String) : mysqlType s ≠ "" := by
  have h := mysqlType_mem s
  intro hc
  rw [hc] at h
  simp [myOutputs] at h

/-- The output vocabulary of `sqliteType`. -/
def sqOutputs : List String :=
  ["Int64", "Float64", "String", "Bytes", "Bool", "Time"]

theorem sqliteType_mem (s : String) : sqliteType s ∈ sqOutputs := by
  unfold sqliteType
  by_cases h1 : isIntegerType (normalizeSQLiteType s) = true
  · rw [if_pos h1]; decide
  rw [if_neg h1]
  by_cases h2 : isRealType (normalizeSQLiteType s) = true
  · rw [if_pos h2]; decide
  rw [if_neg h2]
  by_cases h3 : isTextType (normalizeSQLiteType s) = true
  · rw [if_pos h3]; decide
  rw [if_neg h3]
  by_cases h4 : isBlobType (normalizeSQLiteType s) = true
  · rw [if_pos h4]; decide
  rw [if_neg h4]
  by_cases h5 : isNumericType (normalizeSQLiteType s) = true
  · rw [if_pos h5]; decide
  rw [if_neg h5]
  by_cases h6 : normalizeSQLiteType s = "boolean" ∨ normalizeSQLiteType s = "bool"
  · rw [if_pos h6]; decide
  rw [if_neg h6]
  by_cases h7 : isDateTimeType (normalizeSQLiteType s) = true
  · rw [if_pos h7]; decide
  rw [if_neg h7]
  decide

theorem sqliteType_ne_empty (s : String) : sqliteType s ≠ "" := by
  have h := sqliteType_mem s
  intro hc
  rw [hc] at h
  simp [sqOutputs] at h

theorem postgresType_ne_empty (s : String) : postgresType s ≠ "" := by
  have h := postgresType_mem s
  intro hc
  rw [hc] at h
  simp [pgOutputs] at h

theorem postgresType_unknown (s : String) (h : s ∉ postgresKnown) :
    postgresType s = "String" := by
  unfold postgresType
  rw [if_neg (by rintro (rfl|rfl|rfl) <;> exact h (by decide))]
  rw [if_neg (by rintro (rfl|rfl|rfl|rfl) <;> exact h (by decide))]
  rw [if_neg (by rintro (rfl|rfl|rfl) <;> exact h (by decide))]
  rw [if_neg (by rintro (rfl|rfl) <;> exact h (by decide))]
  rw [if_neg (by rintro (rfl|rfl) <;> exact h (by decide))]
  rw [if_neg (by rintro (rfl|rfl) <;> exact h (by decide))]
  rw [if_neg (by rintro (rfl|rfl) <;> exact h (by decide))]
  rw [if_neg (by rintro (rfl|rfl|rfl|rfl|rfl|rfl) <;> exact h (by decide))]
  rw [if_neg (by rintro (rfl|rfl|rfl|rfl|rfl) <;> exact h (by decide))]
  rw [if_neg (by rintro rfl; exact h (by decide))]
  rw [if_neg (by rintro rfl; exact h (by decide))]
  rw [if_neg (by rintro (rfl|rfl) <;> exact h (by decide))]
  rw [if_neg (by rintro rfl; exact h (by decide))]
  rw [if_neg (by rintro (rfl|rfl|rfl|rfl) <;> exact h (by decide))]
  rw [if_neg (by rintro (rfl|rfl|rfl|rfl|rfl|rfl|rfl) <;> exact h (by decide))]
  rw [if_neg (by rintro rfl; exact h (by decide))]
  rw [if_neg (by rintro (rfl|rfl|rfl) <;> exact h (by decide))]
  rw [if_neg (by rintro (rfl|rfl|rfl|rfl|rfl|rfl) <;> exact h (by decide))]
  rw [if_neg (by rintro rfl; exact h (by decide))]
  rw [if_neg (by rintro rfl; exact h (by decide))]

theorem mysqlType_unknown (s : String) (h : s ∉ mysqlKnown) :
    mysqlType s = "String" := by
  unfold mysqlType
  rw [if_neg (by rintro rfl; exact h (by decide))]
  rw [if_neg (by rintro (rfl|rfl|rfl) <;> exact h (by decide))]
  rw [if_neg (by rintro rfl; exact h (by decide))]
  rw [if_neg (by rintro rfl; exact h (by decide))]
  rw [if_neg (by rintro (rfl|rfl) <;> exact h (by decide))]
  rw [if_neg (by rintro rfl; exact h (by decide))]
  rw [if_neg (by rintro (rfl|rfl|rfl) <;> exact h (by decide))]
  rw [if_neg (by rintro (rfl|rfl|rfl) <;> exact h (by decide))]
  rw [if_neg (by rintro (rfl|rfl|rfl|rfl|rfl|rfl) <;> exact h (by decide))]
  rw [if_neg (by rintro (rfl|rfl) <;> exact h (by decide))]
  rw [if_neg (by rintro rfl; exact h (by decide))]
  rw [if_neg (by rintro rfl; exact h (by decide))]
  rw [if_neg (by rintro rfl; exact h (by decide))]
  rw [if_neg (by rintro rfl; exact h (by decide))]
  rw [if_neg (by rintro (rfl|rfl|rfl|rfl|rfl|rfl) <;> exact h (by decide))]
  rw [if_neg (by rintro (rfl|rfl) <;> exact h (by decide))]

set_option maxHeartbeats 2000000 in
theorem sqliteType_unknown (s : String)
    (h : sqliteRecognized (normalizeSQLiteType s) = false) :
    sqliteType s = "String" := by
  simp only [sqliteType]
  simp only [sqliteRecognized, Bool.or_eq_false_iff, decide_eq_false_iff_not] at h
  obtain ⟨⟨⟨⟨⟨⟨⟨h1, h2⟩, h3⟩, h4⟩, h5⟩, h6⟩, h7⟩, h8⟩ := h
  simp [h1, h2, h3, h4, h5, h6, h7, h8]

theorem baseType_ne_empty (g : Generator) (col : Column) : baseType g col ≠ "" := by
  unfold baseType
  split_ifs
  · exact postgresType_ne_empty _
  · exact mysqlType_ne_empty _
  · exact sqliteType_ne_empty _
  · exact postgresType_ne_empty _

/-- An engine outside the three supported ones resolves through the
postgres table. -/
theorem baseType_default_engine (g : Generator) (col : Column)
    (h1 : g.req.settings.engine ≠ "postgresql")
    (h2 : g.req.settings.engine ≠ "mysql")
    (h3 : g.req.settings.engine ≠ "sqlite") :
    baseType g col =
      postgresType (match col.type with | some t => lowerStr t.name | none => "") := by
  unfold baseType
  simp [h1, h2, h3]

theorem str_append_ne_empty (s t : String) (h : t.data ≠ []) : s ++ t ≠ "" := by
  intro hc
  apply h
  have hd : (s ++ t).data = [] := by rw [hc]
  rw [strData_append] at hd
  exact (List.append_eq_nil.mp hd).2

/-- Case characterization of `crystalType`. -/
theorem crystalType_cases (g : Generator) (col : Column) :
    crystalType g col =
      (if col.isArray then "Array(" ++ baseType g col ++ ")"
       else if col.notNull then baseType g col
       else if g.options.emitResultStructPointers then baseType g col ++ "*"
       else baseType g col ++ "?") := by
  unfold crystalType
  by_cases ha : col.isArray <;> by_cases hn : col.notNull <;>
    by_cases hp : g.options.emitResultStructPointers <;>
    simp [ha, hn, hp]

theorem crystalType_ne_empty (g : Generator) (col : Column) :
    crystalType g col ≠ "" := by
  rw [crystalType_cases]
  by_cases ha : col.isArray <;> by_cases hn : col.notNull <;>
    by_cases hp : g.options.emitResultStructPointers <;>
    simp only [ha, hn, hp, if_true, if_false, Bool.true_eq_false, Bool.false_eq_true] <;>
    first
      | exact str_append_ne_empty _ _ (by decide)
      | exact baseType_ne_empty g col

theorem endsWith_q_true (s : String) : strEndsWith (s ++ "?") "?" = true := by
  unfold strEndsWith
  rw [strData_append]
  show List.isPrefixOf ['?'] ((s.data ++ ['?']).reverse) = true
  rw [List.reverse_append]
  simp [List.isPrefixOf]

theorem endsWith_star_true (s : String) : strEndsWith (s ++ "*") "*" = true := by
  unfold strEndsWith
  rw [strData_append]
  show List.isPrefixOf ['*'] ((s.data ++ ['*']).reverse) = true
  rw [List.reverse_append]
  simp [List.isPrefixOf]

theorem endsWith_paren_q (s : String) : strEndsWith (s ++ ")") "?" = false := by
  unfold strEndsWith
  rw [strData_append]
  show List.isPrefixOf ['?'] ((s.data ++ [')']).reverse) = false
  rw [List.reverse_append]
  rfl

theorem endsWith_paren_star (s : String) : strEndsWith (s ++ ")") "*" = false := by
  unfold strEndsWith
  rw [strData_append]
  show List.isPrefixOf ['*'] ((s.data ++ [')']).reverse) = false
  rw [List.reverse_append]
  rfl

theorem endsWith_star_not_q (s : String) : strEndsWith (s ++ "*") "?" = false := by
  unfold strEndsWith
  rw [strData_append]
  show List.isPrefixOf ['?'] ((s.data ++ ['*']).reverse) = false
  rw [List.reverse_append]
  rfl

theorem pgOutputs_not_q : ∀ x ∈ pgOutputs, strEndsWith x "?" = false := by decide

theorem myOutputs_not_q : ∀ x ∈ myOutputs, strEndsWith x "?" = false := by decide

theorem sqOutputs_not_q : ∀ x ∈ sqOutputs, strEndsWith x "?" = false := by decide

theorem baseType_not_ends_q (g : Generator) (col : Column) :
    strEndsWith (baseType g col) "?" = false := by
  unfold baseType
  split_ifs
  · exact pgOutputs_not_q _ (postgresType_mem _)
  · exact myOutputs_not_q _ (mysqlType_mem _)
  · exact sqOutputs_not_q _ (sqliteType_mem _)
  · exact pgOutputs_not_q _ (postgresType_mem _)

/-- With the pointer option off, a resolved column type carries the `?`
marker exactly when the column is a nullable non-array. -/
theorem crystalType_ends_q_iff (g : Generator) (col : Column)
    (hp : g.options.emitResultStructPointers = false) :
    strEndsWith (crystalType g col) "?" = (!col.notNull && !col.isArray) := by
  rw [crystalType_cases]
  by_cases ha : col.isArray <;> by_cases hn : col.notNull <;>
    simp only [ha, hn, hp, if_true, if_false, Bool.not_true, Bool.not_false,
      Bool.and_true, Bool.and_false, Bool.true_and, Bool.false_and,
      Bool.true_eq_false, Bool.false_eq_true, ite_true, ite_false]
  · exact endsWith_paren_q _
  · exact endsWith_paren_q _
  · exact baseType_not_ends_q g col
  · exact endsWith_q_true _

/-! ## Claim C4: totality and graceful degradation of the type mapper -/

/-- C4: the type mapper is total — for every dialect selector, raw type
name, nullable flag and array flag it yields a non-empty type string; an
unrecognized raw name falls to the `String` default of its dialect table,
and an unsupported dialect selector resolves through the postgres table
instead of failing. -/
theorem c4_type_mapper_total :
    (∀ (g : Generator) (col : Column), crystalType g col ≠ "") ∧
    (∀ (g : Generator) (col : Column),
      g.req.settings.engine ≠ "postgresql" → g.req.settings.engine ≠ "mysql" →
      g.req.settings.engine ≠ "sqlite" →
      baseType g col =
        postgresType (match col.type with | some t => lowerStr t.name | none => "")) ∧
    (∀ s, s ∉ postgresKnown → postgresType s = "String") ∧
    (∀ s, s ∉ mysqlKnown → mysqlType s = "String") ∧
    (∀ s, sqliteRecognized (normalizeSQLiteType s) = false → sqliteType s = "String") :=
  ⟨crystalType_ne_empty, baseType_default_engine,
   postgresType_unknown, mysqlType_unknown, sqliteType_unknown⟩

theorem c4_type_mapper_total_witness :
    crystalType ⟨⟨none, [], ⟨"oracle"⟩⟩, "Db", ⟨false, true, false, false, false, false⟩⟩
        ⟨"c", some ⟨"mystery_type"⟩, true, false, false, none, none, ""⟩ ≠ "" ∧
    baseType ⟨⟨none, [], ⟨"oracle"⟩⟩, "Db", ⟨false, true, false, false, false, false⟩⟩
        ⟨"c", some ⟨"mystery_type"⟩, true, false, false, none, none, ""⟩ =
      postgresType
        (match (some (⟨"mystery_type"⟩ : SqlType) : Option SqlType) with
          | some t => lowerStr t.name | none => "") ∧
    postgresType "mystery_type" = "String" ∧
    mysqlType "mystery_type" = "String" ∧
    sqliteType "mystery_type" = "String" :=
  ⟨c4_type_mapper_total.1 _ _,
   c4_type_mapper_total.2.1 _ _ (by decide) (by decide) (by decide),
   c4_type_mapper_total.2.2.1 _ (by decide),
   c4_type_mapper_total.2.2.2.1 _ (by decide),
   c4_type_mapper_total.2.2.2.2 _ (by decide)⟩

/-! ## Claim C5: nullability and array wrapping rules -/

/-- C5: a nullable non-array column resolves to the base type wrapped in the
optional marker (`?`, or `*` under the pointer-emission option); an
array-flagged column resolves to `Array(base)` and is never additionally
marked optional, whatever the nullable flag is. -/
theorem c5_nullable_array_rules :
    ∀ (g : Generator) (col : Column),
      (col.isArray = false → col.notNull = false →
        crystalType g col =
          baseType g col ++ (if g.options.emitResultStructPointers then "*" else "?")) ∧
      (col.isArray = true →
        crystalType g col = "Array(" ++ baseType g col ++ ")" ∧
        strEndsWith (crystalType g col) "?" = false ∧
        strEndsWith (crystalType g col) "*" = false) := by
  intro g col
  constructor
  · intro ha hn
    rw [crystalType_cases]
    by_cases hp : g.options.emitResultStructPointers <;> simp [ha, hn, hp]
  · intro ha
    have hc : crystalType g col = "Array(" ++ baseType g col ++ ")" := by
      rw [crystalType_cases]; simp [ha]
    refine ⟨hc, ?_, ?_⟩
    · rw [hc]; exact endsWith_paren_q _
    · rw [hc]; exact endsWith_paren_star _

theorem c5_nullable_array_rules_witness :
    (crystalType ⟨⟨none, [], ⟨"postgresql"⟩⟩, "Db", ⟨false, true, false, false, false, false⟩⟩
        ⟨"c", some ⟨"int4"⟩, false, false, false, none, none, ""⟩ =
      baseType ⟨⟨none, [], ⟨"postgresql"⟩⟩, "Db", ⟨false, true, false, false, false, false⟩⟩
        ⟨"c", some ⟨"int4"⟩, false, false, false, none, none, ""⟩ ++
        (if (false : Bool) then "*" else "?")) ∧
    (crystalType ⟨⟨none, [], ⟨"postgresql"⟩⟩, "Db", ⟨false, true, false, false, false, false⟩⟩
        ⟨"c", some ⟨"text"⟩, false, true, false, none, none, ""⟩ =
      "Array(" ++ baseType ⟨⟨none, [], ⟨"postgresql"⟩⟩, "Db", ⟨false, true, false, false, false, false⟩⟩
        ⟨"c", some ⟨"text"⟩, false, true, false, none, none, ""⟩ ++ ")" ∧
      strEndsWith (crystalType ⟨⟨none, [], ⟨"postgresql"⟩⟩, "Db", ⟨false, true, false, false, false, false⟩⟩
        ⟨"c", some ⟨"text"⟩, false, true, false, none, none, ""⟩) "?" = false ∧
      strEndsWith (crystalType ⟨⟨none, [], ⟨"postgresql"⟩⟩, "Db", ⟨false, true, false, false, false, false⟩⟩
        ⟨"c", some ⟨"text"⟩, false, true, false, none, none, ""⟩) "*" = false) :=
  ⟨(c5_nullable_array_rules _ _).1 rfl rfl, (c5_nullable_array_rules _ _).2 rfl⟩

/-! ## Claim C10: DB tags are emitted by default -/

/-- C10: when the configuration sets neither `emit_json_tags` nor
`emit_db_tags`, the generator behaves as if `emit_db_tags` were true: the
resolved options carry `emitDBTags = true`, and a field whose Crystal name
differs from its column name receives a `DB::Field` key annotation. -/
theorem c10_db_tags_default :
    ∀ (o : PluginOptions) (f : CrystalField),
      o.emitJSONTags = false → o.emitDBTags = false →
      (applyDefaults o).2.emitDBTags = true ∧
      (f.dbName ≠ f.name →
        ("@[DB::Field(key: " ++ goQuote f.dbName ++ ")]") ∈
          renderModelsField (applyDefaults o).2 f) := by
  intro o f hj hd
  have hdb : (applyDefaults o).2.emitDBTags = true := by
    simp [applyDefaults, hj, hd]
  refine ⟨hdb, fun hne => ?_⟩
  unfold renderModelsField
  rw [hdb]
  simp [hne]

theorem c10_db_tags_default_witness :
    (applyDefaults ⟨"", false, false, false, false, false, false⟩).2.emitDBTags = true ∧
    ("@[DB::Field(key: " ++ goQuote "CreatedAt" ++ ")]") ∈
      renderModelsField (applyDefaults ⟨"", false, false, false, false, false, false⟩).2
        ⟨"created_at", "CreatedAt", "", "Time"⟩ :=
  ⟨(c10_db_tags_default ⟨"", false, false, false, false, false, false⟩
      ⟨"created_at", "CreatedAt", "", "Time"⟩ rfl rfl).1,
   (c10_db_tags_default ⟨"", false, false, false, false, false, false⟩
      ⟨"created_at", "CreatedAt", "", "Time"⟩ rfl rfl).2 (by decide)⟩

/-! ## Claim C3: slice-parameter expansion in the emitted code -/

/-- Number of `?` placeholder characters in a string. -/
def countQ (s : String) : Nat := s.data.count '?'

theorem gsubAux_count (c : Char) (fuel : Nat) :
    ∀ (s pat rep : List Char), s.length ≤ fuel → pat ≠ [] →
      (gsubAux fuel s pat rep).count c + (gsubOccAux fuel s pat) * pat.count c =
        s.count c + (gsubOccAux fuel s pat) * rep.count c := by
  induction fuel with
  | zero =>
    intro s pat rep hle _
    have hs : s = [] := List.eq_nil_of_length_eq_zero (Nat.le_zero.mp hle)
    subst hs
    simp [gsubAux, gsubOccAux]
  | succ fuel ih =>
    intro s pat rep hle hpat
    cases s with
    | nil => simp [gsubAux, gsubOccAux]
    | cons h t =>
      by_cases hpre : pat.isPrefixOf (h :: t) = true
      · have hguard : (pat.isPrefixOf (h :: t) && !pat.isEmpty) = true := by
          simp [hpre, hpat]
        obtain ⟨t', ht'⟩ := (List.isPrefixOf_iff_prefix.mp hpre)
        have hdrop : List.drop pat.length (h :: t) = t' := by
          rw [← ht']
          exact List.drop_left pat t'
        have hlen : t'.length ≤ fuel := by
          have h1 : (h :: t).length = pat.length + t'.length := by
            rw [← ht', List.length_append]
          have h2 : 1 ≤ pat.length := by
            cases pat with
            | nil => exact absurd rfl hpat
            | cons a b => simp
          simp at h1 hle
          omega
        have ihh := ih t' pat rep hlen hpat
        rw [gsubAux, gsubOccAux, if_pos hguard, if_pos hguard, hdrop]
        rw [List.count_append, ← ht', List.count_append]
        rw [Nat.add_mul, Nat.add_mul]
        simp only [Nat.one_mul]
        linarith [ihh]
      · have hguard : (pat.isPrefixOf (h :: t) && !pat.isEmpty) = false := by
          simp [hpre]
        have hlen : t.length ≤ fuel := by simp at hle; omega
        have ihh := ih t pat rep hlen hpat
        rw [gsubAux, gsubOccAux, if_neg (by simp [hguard]), if_neg (by simp [hguard])]
        simp only [List.count_cons]
        by_cases hc : h = c <;> simp [hc] <;> linarith [ihh]

theorem countQ_placeholders (n : Nat) : countQ (placeholdersFor n) = n := by
  induction n with
  | zero => rfl
  | succ m ih =>
    cases m with
    | zero => rfl
    | succ k =>
      show countQ ("?" ++ ", " ++ placeholdersFor (k + 1)) = k + 2
      unfold countQ at ih ⊢
      rw [strData_append, strData_append, List.count_append, List.count_append]
      have h1 : List.count '?' (("?" : String)).data = 1 := by decide
      have h2 : List.count '?' ((", " : String)).data = 0 := by decide
      omega

theorem sliceMarker_data_ne_nil (pname : String) : (sliceMarker pname).data ≠ [] := by
  unfold sliceMarker
  rw [strData_append, strData_append]
  intro hc
  have := congrArg List.length hc
  simp at this

theorem countQ_sliceMarker (pname : String) (h : countQ pname = 0) :
    countQ (sliceMarker pname) = 1 := by
  unfold sliceMarker countQ
  rw [strData_append, strData_append, List.count_append, List.count_append]
  unfold countQ at h
  have h1 : List.count '?' (("/*SLICE:" : String)).data = 0 := by decide
  have h2 : List.count '?' (("*/?" : String)).data = 1 := by decide
  omega

/-- The count identity for the rewritten SQL: each replaced occurrence of
the marker trades the marker text for the placeholder text. -/
theorem countQ_crystalGsub (sql pat rep : String) (hpat : pat.data ≠ []) :
    countQ (crystalGsub sql pat rep) + gsubOcc sql pat * countQ pat =
      countQ sql + gsubOcc sql pat * countQ rep :=
  gsubAux_count '?' sql.data.length sql.data pat.data rep.data (Nat.le_refl _) hpat

theorem expandAll_error_of_zero (sql : String) (slices : List (String × Nat))
    (h : ∃ p ∈ slices, p.2 = 0) :
    ∃ msg, expandAll sql slices = Except.error msg := by
  induction slices generalizing sql with
  | nil => simp at h
  | cons hd tl ih =>
    obtain ⟨pn, n⟩ := hd
    by_cases hn : n = 0
    · subst hn
      exact ⟨_, rfl⟩
    · obtain ⟨p, hp, hz⟩ := h
      rcases List.mem_cons.mp hp with rfl | hp'
      · simp at hz
        exact absurd hz hn
      · have hone : expandOneSlice sql pn n =
            Except.ok (crystalGsub sql (sliceMarker pn) (placeholdersFor n)) := by
          simp [expandOneSlice, hn]
        rw [expandAll, hone]
        exact ih _ ⟨p, hp', hz⟩

/-- C3: for a query with `sqlc.slice` parameters generated against a
dialect without native array binding (the expansion branch is taken exactly
for `mysql`/`sqlite`), the emitted method raises the descriptive
`ArgumentError` for an empty collection before the database call is ever
made (the result does not depend on the database callback), and for a
collection of `n > 0` elements it rewrites the single `/*SLICE:name*/?`
marker into exactly `n` placeholder tokens (`n` question marks, so the
rewritten SQL carries `n - 1` more `?` characters than the original). -/
theorem c3_slice_expansion (cq : CrystalQuery) (engine : String)
    (sql pname : String) (n : Nat) :
    (needsSliceExpansion cq engine = true ↔
      (cq.usesSqlcSlice = true ∧ (engine = "mysql" ∨ engine = "sqlite"))) ∧
    (∀ (β : Type) (db : String → β),
      runSliceMethod db sql [(pname, 0)] =
        Except.error ("slice parameter " ++ expandOneSlice.squote ++ pname ++
          expandOneSlice.squote ++ " cannot be empty")) ∧
    (∀ (slices : List (String × Nat)), (∃ p ∈ slices, p.2 = 0) →
      ∃ msg, ∀ (β : Type) (db : String → β),
        runSliceMethod db sql slices = Except.error msg) ∧
    (0 < n →
      (∀ (β : Type) (db : String → β),
        runSliceMethod db sql [(pname, n)] =
          Except.ok (db (crystalGsub sql (sliceMarker pname) (placeholdersFor n)))) ∧
      countQ (placeholdersFor n) = n ∧
      (gsubOcc sql (sliceMarker pname) = 1 → countQ pname = 0 →
        countQ (crystalGsub sql (sliceMarker pname) (placeholdersFor n)) + 1 =
          countQ sql + n)) := by
  refine ⟨?_, ?_, ?_, ?_⟩
  · unfold needsSliceExpansion
    constructor
    · intro h
      simp at h
      exact ⟨h.1, h.2⟩
    · intro ⟨h1, h2⟩
      simp [h1, h2]
  · intro β db
    rfl
  · intro slices hz
    obtain ⟨msg, hmsg⟩ := expandAll_error_of_zero sql slices hz
    exact ⟨msg, fun β db => by unfold runSliceMethod; rw [hmsg]; rfl⟩
  · intro hn
    have hne : n ≠ 0 := Nat.pos_iff_ne_zero.mp hn
    refine ⟨fun β db => ?_, countQ_placeholders n, fun hocc hpq => ?_⟩
    · unfold runSliceMethod expandAll expandOneSlice
      simp [hne, expandAll]
      rfl
    · have hid := countQ_crystalGsub sql (sliceMarker pname) (placeholdersFor n)
        (sliceMarker_data_ne_nil pname)
      rw [hocc, countQ_sliceMarker pname hpq, countQ_placeholders n] at hid
      omega

theorem c3_slice_expansion_witness :
    ((needsSliceExpansion
        ⟨"list_by_ids", "SELECT * FROM authors WHERE id IN (/*SLICE:ids*/?)",
          "ListByIds", ":many", "LIST_BY_IDS", [], "", "", "", true, []⟩ "mysql" = true) ∧
      (0 : Nat) < 3 ∧
      gsubOcc "SELECT * FROM authors WHERE id IN (/*SLICE:ids*/?)" (sliceMarker "ids") = 1 ∧
      countQ "ids" = 0) ∧
    runSliceMethod id "SELECT * FROM authors WHERE id IN (/*SLICE:ids*/?)" [("ids", 0)] =
      Except.error ("slice parameter " ++ expandOneSlice.squote ++ "ids" ++
        expandOneSlice.squote ++ " cannot be empty") ∧
    runSliceMethod id "SELECT * FROM authors WHERE id IN (/*SLICE:ids*/?)" [("ids", 3)] =
      Except.ok (id (crystalGsub "SELECT * FROM authors WHERE id IN (/*SLICE:ids*/?)"
        (sliceMarker "ids") (placeholdersFor 3))) ∧
    countQ (placeholdersFor 3) = 3 ∧
    countQ (crystalGsub "SELECT * FROM authors WHERE id IN (/*SLICE:ids*/?)"
        (sliceMarker "ids") (placeholdersFor 3)) + 1 =
      countQ "SELECT * FROM authors WHERE id IN (/*SLICE:ids*/?)" + 3 := by
  refine ⟨⟨?_, by decide, by decide, by decide⟩, ?_, ?_, ?_, ?_⟩
  · exact (c3_slice_expansion
      ⟨"list_by_ids", "SELECT * FROM authors WHERE id IN (/*SLICE:ids*/?)",
        "ListByIds", ":many", "LIST_BY_IDS", [], "", "", "", true, []⟩ "mysql"
      "SELECT * FROM authors WHERE id IN (/*SLICE:ids*/?)" "ids" 3).1.mpr
      ⟨rfl, Or.inl rfl⟩
  · exact (c3_slice_expansion
      ⟨"list_by_ids", "SELECT * FROM authors WHERE id IN (/*SLICE:ids*/?)",
        "ListByIds", ":many", "LIST_BY_IDS", [], "", "", "", true, []⟩ "mysql"
      "SELECT * FROM authors WHERE id IN (/*SLICE:ids*/?)" "ids" 3).2.1 String id
  · exact ((c3_slice_expansion
      ⟨"list_by_ids", "SELECT * FROM authors WHERE id IN (/*SLICE:ids*/?)",
        "ListByIds", ":many", "LIST_BY_IDS", [], "", "", "", true, []⟩ "mysql"
      "SELECT * FROM authors WHERE id IN (/*SLICE:ids*/?)" "ids" 3).2.2.2
      (by decide)).1 String id
  · exact ((c3_slice_expansion
      ⟨"list_by_ids", "SELECT * FROM authors WHERE id IN (/*SLICE:ids*/?)",
        "ListByIds", ":many", "LIST_BY_IDS", [], "", "", "", true, []⟩ "mysql"
      "SELECT * FROM authors WHERE id IN (/*SLICE:ids*/?)" "ids" 3).2.2.2
      (by decide)).2.1
  · exact ((c3_slice_expansion
      ⟨"list_by_ids", "SELECT * FROM authors WHERE id IN (/*SLICE:ids*/?)",
        "ListByIds", ":many", "LIST_BY_IDS", [], "", "", "", true, []⟩ "mysql"
      "SELECT * FROM authors WHERE id IN (/*SLICE:ids*/?)" "ids" 3).2.2.2
      (by decide)).2.2 (by decide) (by decide)

/-! ## Claims C6 and C2: signature ordering and bind-value ordering -/

theorem setReturnType_params (g : Generator) (sigs : List (String × String))
    (q : Query) (cq : CrystalQuery) : (setReturnType g sigs q cq).params = cq.params := by
  unfold setReturnType
  split_ifs <;> rfl

theorem setReturnType_usesSlice (g : Generator) (sigs : List (String × String))
    (q : Query) (cq : CrystalQuery) :
    (setReturnType g sigs q cq).usesSqlcSlice = cq.usesSqlcSlice := by
  unfold setReturnType
  split_ifs <;> rfl

/-- The parameter loop produces exactly one `crystalParam` per request
parameter, in order. -/
theorem buildParams_fst (g : Generator) (q : Query) :
    (buildParams g q).1 = q.params.map (mkQueryParam g) := by
  unfold buildParams
  suffices h : ∀ (l : List Param) (ps : List CrystalParam) (sps : List SliceParam) (hs : Bool),
      (l.foldl
        (fun acc p =>
          match acc with
          | (ps, sps, hs) =>
            let cp := mkQueryParam g p
            if p.column.isSqlcSlice then
              (ps ++ [cp], sps ++ [⟨cp.name, "$" ++ toString p.number⟩], true)
            else (ps ++ [cp], sps, hs))
        (ps, sps, hs)).1 = ps ++ l.map (mkQueryParam g) by
    simpa using h q.params [] [] false
  intro l
  induction l with
  | nil => intro ps sps hs; simp
  | cons p rest ih =>
    intro ps sps hs
    by_cases hp : p.column.isSqlcSlice = true <;>
      simp [hp, ih, List.append_assoc]

theorem buildQueryGQ_params (g : Generator) (sigs : List (String × String)) (q : Query) :
    (buildQueryGQ g sigs q).params = sortS goLess (q.params.map (mkQueryParam g)) := by
  unfold buildQueryGQ
  rw [setReturnType_params]
  rw [show (buildParams g q) = ((buildParams g q).1, (buildParams g q).2) from rfl]
  rw [buildParams_fst]

/-- C6 (amended): with the pointer-emission option off and no `sqlc.slice`
parameters, the emitted call signature is a permutation of the built
parameters in which every required (non-optional) parameter precedes every
defaulted (optional) one, each of the two groups is internally ordered by
original bind position, every optional parameter is rendered with a `nil`
default by `paramList`, and a parameter is optional exactly when its column
is a nullable non-array.  (As stated, with the pointer option on or for a
slice parameter of a nullable column, the nullable parameter gets no `nil`
default — see the counterexample.) -/
theorem c6_signature_ordering (g : Generator) (sigs : List (String × String)) (q : Query)
    (hp : g.options.emitResultStructPointers = false)
    (hs : ∀ p ∈ q.params, p.column.isSqlcSlice = false) :
    ((buildQueryGQ g sigs q).params).Perm (q.params.map (mkQueryParam g)) ∧
    ((buildQueryGQ g sigs q).params).Pairwise
      (fun a b => isOptParam a = true → isOptParam b = true) ∧
    ((buildQueryGQ g sigs q).params).Pairwise
      (fun a b => isOptParam a = isOptParam b → a.position ≤ b.position) ∧
    (∀ p ∈ (buildQueryGQ g sigs q).params,
      isOptParam p = true → paramListEntry p = p.name ++ " : " ++ p.type ++ " = nil") ∧
    (∀ p ∈ q.params,
      isOptParam (mkQueryParam g p) = (!p.column.notNull && !p.column.isArray)) := by
  rw [buildQueryGQ_params]
  have hpw := sortS_pairwise goLess goLess_asym goLess_negtrans (q.params.map (mkQueryParam g))
  refine ⟨sortS_perm _ _, ?_, ?_, ?_, ?_⟩
  · refine hpw.imp ?_
    intro a b hab hoa
    by_cases hob : isOptParam b = true
    · exact hob
    · exfalso
      have hob' : isOptParam b = false := by
        cases hb : isOptParam b
        · rfl
        · exact absurd hb hob
      have : goLess b a = true := by
        unfold goLess
        rw [if_pos (show isOptParam b ≠ isOptParam a by simp [hoa, hob'])]
        simp [hob']
      rw [hab] at this
      exact Bool.false_ne_true this
  · refine hpw.imp ?_
    intro a b hab heq
    unfold goLess at hab
    rw [heq] at hab
    simp at hab
    omega
  · intro p _ hop
    unfold paramListEntry
    rw [if_pos (show strEndsWith p.type "?" = true from hop)]
  · intro p hep
    unfold mkQueryParam
    rw [if_neg (by simp [hs p hep])]
    exact crystalType_ends_q_iff g p.column hp

theorem c6_signature_ordering_witness :
    (((buildQueryGQ ⟨⟨none, [], ⟨"postgresql"⟩⟩, "Db", ⟨false, true, false, false, false, false⟩⟩ []
        ⟨"GetThing", "SELECT 1", ":exec",
          [⟨1, ⟨"id", some ⟨"int4"⟩, true, false, false, none, none, ""⟩⟩,
           ⟨2, ⟨"name", some ⟨"text"⟩, true, false, false, none, none, ""⟩⟩,
           ⟨3, ⟨"bio", some ⟨"text"⟩, false, false, false, none, none, ""⟩⟩], [], []⟩).params).Pairwise
      (fun a b => isOptParam a = true → isOptParam b = true)) ∧
    paramList (buildQueryGQ ⟨⟨none, [], ⟨"postgresql"⟩⟩, "Db", ⟨false, true, false, false, false, false⟩⟩ []
        ⟨"GetThing", "SELECT 1", ":exec",
          [⟨1, ⟨"id", some ⟨"int4"⟩, true, false, false, none, none, ""⟩⟩,
           ⟨2, ⟨"name", some ⟨"text"⟩, true, false, false, none, none, ""⟩⟩,
           ⟨3, ⟨"bio", some ⟨"text"⟩, false, false, false, none, none, ""⟩⟩], [], []⟩).params =
      "id : Int32, name : String, bio : String? = nil" :=
  ⟨(c6_signature_ordering ⟨⟨none, [], ⟨"postgresql"⟩⟩, "Db", ⟨false, true, false, false, false, false⟩⟩ []
      ⟨"GetThing", "SELECT 1", ":exec",
        [⟨1, ⟨"id", some ⟨"int4"⟩, true, false, false, none, none, ""⟩⟩,
         ⟨2, ⟨"name", some ⟨"text"⟩, true, false, false, none, none, ""⟩⟩,
         ⟨3, ⟨"bio", some ⟨"text"⟩, false, false, false, none, none, ""⟩⟩], [], []⟩
      rfl (by decide)).2.1, by decide⟩

/-- C6 counterexample: the claim "every nullable parameter is given a nil
default" fails (a) under the pointer-emission option, where a nullable
column parameter is typed `String*` and gets no default (and is sorted as
required), and (b) for a `sqlc.slice` parameter whose column is nullable,
which is typed `Array(...)` and gets no default. -/
theorem c6_signature_ordering_cex :
    (((⟨"bio", some ⟨"text"⟩, false, false, false, none, none, ""⟩ : Column).notNull = false) ∧
      paramList (buildQueryGQ ⟨⟨none, [], ⟨"postgresql"⟩⟩, "Db", ⟨false, true, true, false, false, false⟩⟩ []
          ⟨"GetThing", "SELECT 1", ":exec",
            [⟨1, ⟨"bio", some ⟨"text"⟩, false, false, false, none, none, ""⟩⟩], [], []⟩).params =
        "bio : String*" ∧
      strContains (paramList (buildQueryGQ ⟨⟨none, [], ⟨"postgresql"⟩⟩, "Db", ⟨false, true, true, false, false, false⟩⟩ []
          ⟨"GetThing", "SELECT 1", ":exec",
            [⟨1, ⟨"bio", some ⟨"text"⟩, false, false, false, none, none, ""⟩⟩], [], []⟩).params)
        " = nil" = false) ∧
    (((⟨"ids", some ⟨"bigint"⟩, false, false, true, none, none, ""⟩ : Column).notNull = false) ∧
      paramList (buildQueryGQ ⟨⟨none, [], ⟨"mysql"⟩⟩, "Db", ⟨false, true, false, false, false, false⟩⟩ []
          ⟨"ListByIds", "SELECT 1", ":many",
            [⟨1, ⟨"ids", some ⟨"bigint"⟩, false, false, true, none, none, ""⟩⟩],
            [⟨"id", some ⟨"bigint"⟩, true, false, false, none, none, ""⟩], []⟩).params =
        "ids : Array(Int64)" ∧
      strContains (paramList (buildQueryGQ ⟨⟨none, [], ⟨"mysql"⟩⟩, "Db", ⟨false, true, false, false, false, false⟩⟩ []
          ⟨"ListByIds", "SELECT 1", ":many",
            [⟨1, ⟨"ids", some ⟨"bigint"⟩, false, false, true, none, none, ""⟩⟩],
            [⟨"id", some ⟨"bigint"⟩, true, false, false, none, none, ""⟩], []⟩).params)
        " = nil" = false) := by
  decide

/-- C2, evaluated at the failing input: for the MySQL query
`ListThings(a text NULL @ position 1, b text NOT NULL @ position 2,
ids sqlc.slice @ position 3)`, the required-first signature sort reorders
the parameters to `b, ids, a`; the slice-expansion branch of the queries
template then flattens the bound values by iterating that signature-sorted
list, so the bind-value order is `b, ids, a` — not the original
SQL bind-position order `a, b, ids` that the rewritten placeholders
require and that the non-slice branch (via `paramNames`) uses.  The name
SETS of signature and bind list still coincide. -/
theorem c2_slice_bind_order_bug :
    needsSliceExpansion (buildQueryGQ ⟨⟨none, [], ⟨"mysql"⟩⟩, "Db", ⟨false, true, false, false, false, false⟩⟩ []
        ⟨"ListThings", "SELECT id FROM things WHERE a = ? AND b = ? AND id IN (/*SLICE:ids*/?)", ":many",
          [⟨1, ⟨"a", some ⟨"text"⟩, false, false, false, none, none, ""⟩⟩,
           ⟨2, ⟨"b", some ⟨"text"⟩, true, false, false, none, none, ""⟩⟩,
           ⟨3, ⟨"ids", some ⟨"bigint"⟩, true, false, true, none, none, ""⟩⟩],
          [⟨"id", some ⟨"bigint"⟩, true, false, false, none, none, ""⟩], []⟩) "mysql" = true ∧
    sliceBranchBindNames (buildQueryGQ ⟨⟨none, [], ⟨"mysql"⟩⟩, "Db", ⟨false, true, false, false, false, false⟩⟩ []
        ⟨"ListThings", "SELECT id FROM things WHERE a = ? AND b = ? AND id IN (/*SLICE:ids*/?)", ":many",
          [⟨1, ⟨"a", some ⟨"text"⟩, false, false, false, none, none, ""⟩⟩,
           ⟨2, ⟨"b", some ⟨"text"⟩, true, false, false, none, none, ""⟩⟩,
           ⟨3, ⟨"ids", some ⟨"bigint"⟩, true, false, true, none, none, ""⟩⟩],
          [⟨"id", some ⟨"bigint"⟩, true, false, false, none, none, ""⟩], []⟩) = ["b", "ids", "a"] ∧
    paramNamesList (buildQueryGQ ⟨⟨none, [], ⟨"mysql"⟩⟩, "Db", ⟨false, true, false, false, false, false⟩⟩ []
        ⟨"ListThings", "SELECT id FROM things WHERE a = ? AND b = ? AND id IN (/*SLICE:ids*/?)", ":many",
          [⟨1, ⟨"a", some ⟨"text"⟩, false, false, false, none, none, ""⟩⟩,
           ⟨2, ⟨"b", some ⟨"text"⟩, true, false, false, none, none, ""⟩⟩,
           ⟨3, ⟨"ids", some ⟨"bigint"⟩, true, false, true, none, none, ""⟩⟩],
          [⟨"id", some ⟨"bigint"⟩, true, false, false, none, none, ""⟩], []⟩).params = ["a", "b", "ids"] ∧
    (["b", "ids", "a"] : List String) ≠ ["a", "b", "ids"] ∧
    (["b", "ids", "a"] : List String).Perm ["a", "b", "ids"] := by
  refine ⟨by decide, by decide, by decide, by decide, ?_⟩
  have h1 : (["b", "ids", "a"] : List String).Perm ["b", "a", "ids"] :=
    List.Perm.cons "b" (List.Perm.swap "a" "ids" [])
  have h2 : (["b", "a", "ids"] : List String).Perm ["a", "b", "ids"] :=
    List.Perm.swap "a" "b" ["ids"]
  exact h1.trans h2

/-! ## Claim C1: struct-name deduplication across queries -/

/-- The plain-column signature of a query (the one `getStructNameForQuery`
computes). -/
def plainSig (g : Generator) (q : Query) : String :=
  fieldsSig (q.columns.map (plainField g))

theorem classifyStep_no_embed (acc : List (String × List Column) × List Column × Bool)
    (col : Column) (h : col.embedTable = none) :
    (classifyStep acc col).2.2 = acc.2.2 := by
  obtain ⟨m, sa, hs⟩ := acc
  unfold classifyStep
  rw [h]
  cases ht : col.table with
  | none => rfl
  | some t => by_cases hn : t.name ≠ "" <;> simp [hn]

theorem foldClassify_hasEmb_false (cols : List Column) :
    (∀ c ∈ cols, c.embedTable = none) →
    ∀ (acc : List (String × List Column) × List Column × Bool),
      acc.2.2 = false → (cols.foldl classifyStep acc).2.2 = false := by
  induction cols with
  | nil => intro _ acc hacc; exact hacc
  | cons c rest ih =>
    intro h acc hacc
    rw [List.foldl_cons]
    refine ih (fun x hx => h x (List.mem_cons_of_mem c hx)) (classifyStep acc c) ?_
    rw [classifyStep_no_embed acc c (h c (List.mem_cons_self c rest))]
    exact hacc

theorem classify_hasEmb_false (cols : List Column)
    (h : ∀ c ∈ cols, c.embedTable = none) :
    (classifyColumns cols).2.2 = false :=
  foldClassify_hasEmb_false cols h ([], [], false) rfl

theorem queryFields_no_embed (g : Generator) (q : Query)
    (h : ∀ c ∈ q.columns, c.embedTable = none) :
    queryFields g q = q.columns.map (plainField g) := by
  unfold queryFields
  rcases hcc : classifyColumns q.columns with ⟨groups, rest⟩
  obtain ⟨sa, hemb⟩ := rest
  have : hemb = false := by
    have := classify_hasEmb_false q.columns h
    rw [hcc] at this
    exact this
  subst this
  simp

/-- The signature map after one query step: unchanged, or extended at an
unregistered signature. -/
theorem processQuery_sigs_cases (g : Generator) (st : ModelsState) (q : Query) :
    (processQuery g st q).sigs = st.sigs ∨
    ∃ sig name, lookupA sig st.sigs = none ∧
      (processQuery g st q).sigs = upsert sig name st.sigs := by
  unfold processQuery
  by_cases h1 : q.columns.length = 0
  · rw [if_pos h1]
    exact Or.inl rfl
  rw [if_neg h1]
  by_cases h2 : (q.cmd = ":exec" || q.cmd = ":execresult" || q.cmd = ":execrows" ||
      q.cmd = ":copyfrom") = true
  · rw [if_pos h2]
    exact Or.inl rfl
  rw [if_neg h2]
  cases hl : lookupA (fieldsSig (queryFields g q)) st.sigs with
  | some n =>
    left
    simp only [hl]
  | none =>
    right
    exact ⟨fieldsSig (queryFields g q),
      toPascalCase q.name ++ (if q.cmd = ":one" || q.cmd = ":many" then "Row" else ""),
      hl, by simp only [hl]⟩

theorem processQuery_preserves (g : Generator) (st : ModelsState) (q : Query)
    (k v : String) (h : lookupA k st.sigs = some v) :
    lookupA k (processQuery g st q).sigs = some v := by
  rcases processQuery_sigs_cases g st q with heq | ⟨sig, name, hnone, heq⟩
  · rw [heq]
    exact h
  · rw [heq, lookupA_upsert]
    split_ifs with hk
    · rw [hk] at h
      rw [h] at hnone
      cases hnone
    · exact h

theorem foldQueries_preserves (g : Generator) (l : List Query) (st : ModelsState)
    (k v : String) (h : lookupA k st.sigs = some v) :
    lookupA k (l.foldl (processQuery g) st).sigs = some v := by
  induction l generalizing st with
  | nil => exact h
  | cons q rest ih => exact ih _ (processQuery_preserves g st q k v h)

theorem processQuery_registers (g : Generator) (st : ModelsState) (q : Query)
    (hcols : q.columns ≠ []) (hcmd : q.cmd = ":one" ∨ q.cmd = ":many") :
    ∃ v, lookupA (fieldsSig (queryFields g q)) (processQuery g st q).sigs = some v := by
  unfold processQuery
  rw [if_neg (by intro hz; exact hcols (List.length_eq_zero.mp hz))]
  rw [if_neg (by rcases hcmd with h | h <;> simp [h])]
  cases hl : lookupA (fieldsSig (queryFields g q)) st.sigs with
  | some n =>
    refine ⟨n, ?_⟩
    simp only [hl]
  | none =>
    refine ⟨toPascalCase q.name ++ (if q.cmd = ":one" || q.cmd = ":many" then "Row" else ""), ?_⟩
    simp only [hl]
    exact lookupA_upsert_self _ _ _

theorem foldQueries_registers (g : Generator) (l : List Query) (st : ModelsState)
    (q : Query) (hq : q ∈ l)
    (hcols : q.columns ≠ []) (hcmd : q.cmd = ":one" ∨ q.cmd = ":many") :
    ∃ v, lookupA (fieldsSig (queryFields g q)) ((l.foldl (processQuery g) st)).sigs = some v := by
  induction l generalizing st with
  | nil => cases hq
  | cons x rest ih =>
    rcases List.mem_cons.mp hq with rfl | hq'
    · obtain ⟨v, hv⟩ := processQuery_registers g st q hcols hcmd
      exact ⟨v, foldQueries_preserves g rest _ _ _ hv⟩
    · exact ih (processQuery g st x) hq' 

/-- `runModels` is the query fold over the table pass (when models are
generated at all). -/
theorem runModels_eq (g : Generator) (cat : Catalog)
    (hcat : g.req.catalog = some cat) (hschemas : cat.schemas ≠ []) :
    runModels g = g.req.queries.foldl (processQuery g) (runTables g) := by
  unfold runModels runTables
  rw [hcat]
  have hlen : cat.schemas.length > 0 := by
    cases hs : cat.schemas with
    | nil => exact absurd hs hschemas
    | cons a b => simp
  simp [hlen]

theorem getStructName_of_lookup (g : Generator) (sigs : List (String × String))
    (q : Query) (hlen : ¬ q.columns.length ≤ 1) (n : String)
    (h : lookupA (plainSig g q) sigs = some n) :
    getStructNameForQuery g sigs q = n := by
  unfold getStructNameForQuery
  rw [if_neg hlen]
  have h' : lookupA (fieldsSig (q.columns.map (plainField g))) sigs = some n := h
  simp [h']

theorem plainSig_congr (g : Generator) (cols1 cols2 : List Column)
    (h : cols1.map (fun c => (c.name, crystalType g c)) =
      cols2.map (fun c => (c.name, crystalType g c))) :
    fieldsSig (cols1.map (plainField g)) = fieldsSig (cols2.map (plainField g)) := by
  unfold fieldsSig
  suffices hgen : ∀ (acc : String), (cols1.map (plainField g)).foldl
      (fun acc f => acc ++ f.name ++ ":" ++ f.type ++ ";") acc =
    (cols2.map (plainField g)).foldl
      (fun acc f => acc ++ f.name ++ ":" ++ f.type ++ ";") acc by
    exact hgen ""
  induction cols1 generalizing cols2 with
  | nil =>
    intro acc
    have : cols2.map (fun c => (c.name, crystalType g c)) = [] := h.symm
    have h2 : cols2 = [] := List.map_eq_nil_iff.mp this
    rw [h2]
  | cons c1 r1 ih =>
    intro acc
    cases cols2 with
    | nil => cases h
    | cons c2 r2 =>
      simp only [List.map_cons, List.cons.injEq] at h
      obtain ⟨hpair, hrest⟩ := h
      have hname : c1.name = c2.name := congrArg Prod.fst hpair
      have htype : crystalType g c1 = crystalType g c2 := congrArg Prod.snd hpair
      simp only [List.map_cons, List.foldl_cons]
      rw [show plainField g c1 = ⟨toSnakeCase c1.name, c1.name,
            if g.options.emitJSONTags then c1.name else "", crystalType g c1⟩ from rfl,
          show plainField g c2 = ⟨toSnakeCase c2.name, c2.name,
            if g.options.emitJSONTags then c2.name else "", crystalType g c2⟩ from rfl]
      simp only [hname, htype]
      exact ih r2 hrest _

/-- C1 (amended): provided model generation runs (the catalog has at least
one schema) and restricted to queries whose result columns carry no
embed-table markers: (a) any two row-returning queries whose ordered
result-column (name, mapped type) sequences are identical are assigned the
identical struct name; (b) a query whose plain-column signature was
registered by the table pass (a table struct with that field signature) is
given that registered table-struct name, never a synthesized
query-name-based one.  (With embed markers the plain signature computed by
`getStructNameForQuery` can differ from the embed-grouped signature
registered by `generateModels`, and the name falls back to the query name —
see the counterexample.) -/
theorem c1_struct_dedup (g : Generator) (cat : Catalog)
    (hcat : g.req.catalog = some cat) (hschemas : cat.schemas ≠ [])
    (q1 q2 : Query) (hq1 : q1 ∈ g.req.queries) (_hq2 : q2 ∈ g.req.queries)
    (hc1 : q1.cmd = ":one" ∨ q1.cmd = ":many") (_hc2 : q2.cmd = ":one" ∨ q2.cmd = ":many")
    (he1 : ∀ c ∈ q1.columns, c.embedTable = none)
    (_he2 : ∀ c ∈ q2.columns, c.embedTable = none) :
    ((q1.columns.map (fun c => (c.name, crystalType g c)) =
        q2.columns.map (fun c => (c.name, crystalType g c))) →
      getStructNameForQuery g (runModels g).sigs q1 =
        getStructNameForQuery g (runModels g).sigs q2) ∧
    (∀ n : String, 1 < q1.columns.length →
      lookupA (plainSig g q1) (runTables g).sigs = some n →
      getStructNameForQuery g (runModels g).sigs q1 = n) := by
  constructor
  · intro hmap
    by_cases hlen : q1.columns.length ≤ 1
    · have hlen2 : q2.columns.length ≤ 1 := by
        have := congrArg List.length hmap
        simp only [List.length_map] at this
        omega
      unfold getStructNameForQuery
      rw [if_pos hlen, if_pos hlen2]
    · have hlen1 : ¬ q1.columns.length ≤ 1 := hlen
      have hlen2 : ¬ q2.columns.length ≤ 1 := by
        have := congrArg List.length hmap
        simp only [List.length_map] at this
        omega
      have hcols1 : q1.columns ≠ [] := by
        intro hc
        rw [hc] at hlen1
        simp at hlen1
      obtain ⟨v, hv⟩ := foldQueries_registers g g.req.queries (runTables g) q1 hq1 hcols1 hc1
      rw [queryFields_no_embed g q1 he1] at hv
      have hsig : plainSig g q1 = plainSig g q2 := plainSig_congr g _ _ hmap
      have hv1 : lookupA (plainSig g q1) (runModels g).sigs = some v := by
        rw [runModels_eq g cat hcat hschemas]
        exact hv
      have hv2 : lookupA (plainSig g q2) (runModels g).sigs = some v := by
        rw [← hsig]
        exact hv1
      rw [getStructName_of_lookup g _ q1 hlen1 v hv1,
        getStructName_of_lookup g _ q2 hlen2 v hv2]
  · intro n hlen hn
    have hlen1 : ¬ q1.columns.length ≤ 1 := by omega
    have hv1 : lookupA (plainSig g q1) (runModels g).sigs = some n := by
      rw [runModels_eq g cat hcat hschemas]
      exact foldQueries_preserves g g.req.queries (runTables g) (plainSig g q1) n hn
    exact getStructName_of_lookup g _ q1 hlen1 n hv1

/-- C1 counterexample: two row-returning queries with literally identical
result-column sequences (two embed-marked columns), but different names,
are assigned DIFFERENT struct names: the plain-column signature computed by
`getStructNameForQuery` was never registered (the models pass registered
the embed-grouped signature instead), so each falls back to its own
query-name-derived name. -/
theorem c1_struct_dedup_cex :
    ((⟨"GetA", "SELECT a, b FROM authors, books", ":many", [],
        [⟨"authors", some ⟨"text"⟩, true, false, false, some ⟨"public", "authors"⟩, none, ""⟩,
         ⟨"books", some ⟨"text"⟩, true, false, false, some ⟨"public", "books"⟩, none, ""⟩],
        []⟩ : Query).columns.map
          (fun c => (c.name, crystalType ⟨⟨some ⟨[⟨"public",
            [⟨⟨"public", "authors"⟩, [⟨"id", some ⟨"int4"⟩, true, false, false, none, none, ""⟩]⟩,
             ⟨⟨"public", "books"⟩, [⟨"title", some ⟨"text"⟩, true, false, false, none, none, ""⟩]⟩]⟩]⟩,
            [], ⟨"postgresql"⟩⟩, "Db", ⟨false, true, false, false, false, false⟩⟩ c)) =
      (⟨"GetB", "SELECT a, b FROM authors, books", ":many", [],
        [⟨"authors", some ⟨"text"⟩, true, false, false, some ⟨"public", "authors"⟩, none, ""⟩,
         ⟨"books", some ⟨"text"⟩, true, false, false, some ⟨"public", "books"⟩, none, ""⟩],
        []⟩ : Query).columns.map
          (fun c => (c.name, crystalType ⟨⟨some ⟨[⟨"public",
            [⟨⟨"public", "authors"⟩, [⟨"id", some ⟨"int4"⟩, true, false, false, none, none, ""⟩]⟩,
             ⟨⟨"public", "books"⟩, [⟨"title", some ⟨"text"⟩, true, false, false, none, none, ""⟩]⟩]⟩]⟩,
            [], ⟨"postgresql"⟩⟩, "Db", ⟨false, true, false, false, false, false⟩⟩ c))) ∧
    getStructNameForQuery
      ⟨⟨some ⟨[⟨"public",
          [⟨⟨"public", "authors"⟩, [⟨"id", some ⟨"int4"⟩, true, false, false, none, none, ""⟩]⟩,
           ⟨⟨"public", "books"⟩, [⟨"title", some ⟨"text"⟩, true, false, false, none, none, ""⟩]⟩]⟩]⟩,
        [⟨"GetA", "SELECT a, b FROM authors, books", ":many", [],
          [⟨"authors", some ⟨"text"⟩, true, false, false, some ⟨"public", "authors"⟩, none, ""⟩,
           ⟨"books", some ⟨"text"⟩, true, false, false, some ⟨"public", "books"⟩, none, ""⟩], []⟩,
         ⟨"GetB", "SELECT a, b FROM authors, books", ":many", [],
          [⟨"authors", some ⟨"text"⟩, true, false, false, some ⟨"public", "authors"⟩, none, ""⟩,
           ⟨"books", some ⟨"text"⟩, true, false, false, some ⟨"public", "books"⟩, none, ""⟩], []⟩],
        ⟨"postgresql"⟩⟩, "Db", ⟨false, true, false, false, false, false⟩⟩
      (runModels ⟨⟨some ⟨[⟨"public",
          [⟨⟨"public", "authors"⟩, [⟨"id", some ⟨"int4"⟩, true, false, false, none, none, ""⟩]⟩,
           ⟨⟨"public", "books"⟩, [⟨"title", some ⟨"text"⟩, true, false, false, none, none, ""⟩]⟩]⟩]⟩,
        [⟨"GetA", "SELECT a, b FROM authors, books", ":many", [],
          [⟨"authors", some ⟨"text"⟩, true, false, false, some ⟨"public", "authors"⟩, none, ""⟩,
           ⟨"books", some ⟨"text"⟩, true, false, false, some ⟨"public", "books"⟩, none, ""⟩], []⟩,
         ⟨"GetB", "SELECT a, b FROM authors, books", ":many", [],
          [⟨"authors", some ⟨"text"⟩, true, false, false, some ⟨"public", "authors"⟩, none, ""⟩,
           ⟨"books", some ⟨"text"⟩, true, false, false, some ⟨"public", "books"⟩, none, ""⟩], []⟩],
        ⟨"postgresql"⟩⟩, "Db", ⟨false, true, false, false, false, false⟩⟩).sigs
      ⟨"GetA", "SELECT a, b FROM authors, books", ":many", [],
        [⟨"authors", some ⟨"text"⟩, true, false, false, some ⟨"public", "authors"⟩, none, ""⟩,
         ⟨"books", some ⟨"text"⟩, true, false, false, some ⟨"public", "books"⟩, none, ""⟩], []⟩ =
      "GetARow" ∧
    getStructNameForQuery
      ⟨⟨some ⟨[⟨"public",
          [⟨⟨"public", "authors"⟩, [⟨"id", some ⟨"int4"⟩, true, false, false, none, none, ""⟩]⟩,
           ⟨⟨"public", "books"⟩, [⟨"title", some ⟨"text"⟩, true, false, false, none, none, ""⟩]⟩]⟩]⟩,
        [⟨"GetA", "SELECT a, b FROM authors, books", ":many", [],
          [⟨"authors", some ⟨"text"⟩, true, false, false, some ⟨"public", "authors"⟩, none, ""⟩,
           ⟨"books", some ⟨"text"⟩, true, false, false, some ⟨"public", "books"⟩, none, ""⟩], []⟩,
         ⟨"GetB", "SELECT a, b FROM authors, books", ":many", [],
          [⟨"authors", some ⟨"text"⟩, true, false, false, some ⟨"public", "authors"⟩, none, ""⟩,
           ⟨"books", some ⟨"text"⟩, true, false, false, some ⟨"public", "books"⟩, none, ""⟩], []⟩],
        ⟨"postgresql"⟩⟩, "Db", ⟨false, true, false, false, false, false⟩⟩
      (runModels ⟨⟨some ⟨[⟨"public",
          [⟨⟨"public", "authors"⟩, [⟨"id", some ⟨"int4"⟩, true, false, false, none, none, ""⟩]⟩,
           ⟨⟨"public", "books"⟩, [⟨"title", some ⟨"text"⟩, true, false, false, none, none, ""⟩]⟩]⟩]⟩,
        [⟨"GetA", "SELECT a, b FROM authors, books", ":many", [],
          [⟨"authors", some ⟨"text"⟩, true, false, false, some ⟨"public", "authors"⟩, none, ""⟩,
           ⟨"books", some ⟨"text"⟩, true, false, false, some ⟨"public", "books"⟩, none, ""⟩], []⟩,
         ⟨"GetB", "SELECT a, b FROM authors, books", ":many", [],
          [⟨"authors", some ⟨"text"⟩, true, false, false, some ⟨"public", "authors"⟩, none, ""⟩,
           ⟨"books", some ⟨"text"⟩, true, false, false, some ⟨"public", "books"⟩, none, ""⟩], []⟩],
        ⟨"postgresql"⟩⟩, "Db", ⟨false, true, false, false, false, false⟩⟩).sigs
      ⟨"GetB", "SELECT a, b FROM authors, books", ":many", [],
        [⟨"authors", some ⟨"text"⟩, true, false, false, some ⟨"public", "authors"⟩, none, ""⟩,
         ⟨"books", some ⟨"text"⟩, true, false, false, some ⟨"public", "books"⟩, none, ""⟩], []⟩ =
      "GetBRow" ∧
    ("GetARow" : String) ≠ "GetBRow" := by
  refine ⟨rfl, by decide, by decide, by decide⟩

theorem c1_struct_dedup_witness :
    getStructNameForQuery
      ⟨⟨some ⟨[⟨"public", [⟨⟨"public", "authors"⟩,
          [⟨"id", some ⟨"int4"⟩, true, false, false, none, none, ""⟩,
           ⟨"name", some ⟨"text"⟩, true, false, false, none, none, ""⟩]⟩]⟩]⟩,
        [⟨"GetAuthor", "SELECT id, name FROM authors WHERE id = $1", ":one", [],
          [⟨"id", some ⟨"int4"⟩, true, false, false, none, none, ""⟩,
           ⟨"name", some ⟨"text"⟩, true, false, false, none, none, ""⟩], []⟩,
         ⟨"InsertAuthor", "INSERT INTO authors (name) VALUES ($1) RETURNING id, name", ":one", [],
          [⟨"id", some ⟨"int4"⟩, true, false, false, none, none, ""⟩,
           ⟨"name", some ⟨"text"⟩, true, false, false, none, none, ""⟩], []⟩],
        ⟨"postgresql"⟩⟩, "Db", ⟨false, true, false, false, false, false⟩⟩
      (runModels ⟨⟨some ⟨[⟨"public", [⟨⟨"public", "authors"⟩,
          [⟨"id", some ⟨"int4"⟩, true, false, false, none, none, ""⟩,
           ⟨"name", some ⟨"text"⟩, true, false, false, none, none, ""⟩]⟩]⟩]⟩,
        [⟨"GetAuthor", "SELECT id, name FROM authors WHERE id = $1", ":one", [],
          [⟨"id", some ⟨"int4"⟩, true, false, false, none, none, ""⟩,
           ⟨"name", some ⟨"text"⟩, true, false, false, none, none, ""⟩], []⟩,
         ⟨"InsertAuthor", "INSERT INTO authors (name) VALUES ($1) RETURNING id, name", ":one", [],
          [⟨"id", some ⟨"int4"⟩, true, false, false, none, none, ""⟩,
           ⟨"name", some ⟨"text"⟩, true, false, false, none, none, ""⟩], []⟩],
        ⟨"postgresql"⟩⟩, "Db", ⟨false, true, false, false, false, false⟩⟩).sigs
      ⟨"GetAuthor", "SELECT id, name FROM authors WHERE id = $1", ":one", [],
        [⟨"id", some ⟨"int4"⟩, true, false, false, none, none, ""⟩,
         ⟨"name", some ⟨"text"⟩, true, false, false, none, none, ""⟩], []⟩ =
    getStructNameForQuery
      ⟨⟨some ⟨[⟨"public", [⟨⟨"public", "authors"⟩,
          [⟨"id", some ⟨"int4"⟩, true, false, false, none, none, ""⟩,
           ⟨"name", some ⟨"text"⟩, true, false, false, none, none, ""⟩]⟩]⟩]⟩,
        [⟨"GetAuthor", "SELECT id, name FROM authors WHERE id = $1", ":one", [],
          [⟨"id", some ⟨"int4"⟩, true, false, false, none, none, ""⟩,
           ⟨"name", some ⟨"text"⟩, true, false, false, none, none, ""⟩], []⟩,
         ⟨"InsertAuthor", "INSERT INTO authors (name) VALUES ($1) RETURNING id, name", ":one", [],
          [⟨"id", some ⟨"int4"⟩, true, false, false, none, none, ""⟩,
           ⟨"name", some ⟨"text"⟩, true, false, false, none, none, ""⟩], []⟩],
        ⟨"postgresql"⟩⟩, "Db", ⟨false, true, false, false, false, false⟩⟩
      (runModels ⟨⟨some ⟨[⟨"public", [⟨⟨"public", "authors"⟩,
          [⟨"id", some ⟨"int4"⟩, true, false, false, none, none, ""⟩,
           ⟨"name", some ⟨"text"⟩, true, false, false, none, none, ""⟩]⟩]⟩]⟩,
        [⟨"GetAuthor", "SELECT id, name FROM authors WHERE id = $1", ":one", [],
          [⟨"id", some ⟨"int4"⟩, true, false, false, none, none, ""⟩,
           ⟨"name", some ⟨"text"⟩, true, false, false, none, none, ""⟩], []⟩,
         ⟨"InsertAuthor", "INSERT INTO authors (name) VALUES ($1) RETURNING id, name", ":one", [],
          [⟨"id", some ⟨"int4"⟩, true, false, false, none, none, ""⟩,
           ⟨"name", some ⟨"text"⟩, true, false, false, none, none, ""⟩], []⟩],
        ⟨"postgresql"⟩⟩, "Db", ⟨false, true, false, false, false, false⟩⟩).sigs
      ⟨"InsertAuthor", "INSERT INTO authors (name) VALUES ($1) RETURNING id, name", ":one", [],
        [⟨"id", some ⟨"int4"⟩, true, false, false, none, none, ""⟩,
         ⟨"name", some ⟨"text"⟩, true, false, false, none, none, ""⟩], []⟩ ∧
    getStructNameForQuery
      ⟨⟨some ⟨[⟨"public", [⟨⟨"public", "authors"⟩,
          [⟨"id", some ⟨"int4"⟩, true, false, false, none, none, ""⟩,
           ⟨"name", some ⟨"text"⟩, true, false, false, none, none, ""⟩]⟩]⟩]⟩,
        [⟨"GetAuthor", "SELECT id, name FROM authors WHERE id = $1", ":one", [],
          [⟨"id", some ⟨"int4"⟩, true, false, false, none, none, ""⟩,
           ⟨"name", some ⟨"text"⟩, true, false, false, none, none, ""⟩], []⟩,
         ⟨"InsertAuthor", "INSERT INTO authors (name) VALUES ($1) RETURNING id, name", ":one", [],
          [⟨"id", some ⟨"int4"⟩, true, false, false, none, none, ""⟩,
           ⟨"name", some ⟨"text"⟩, true, false, false, none, none, ""⟩], []⟩],
        ⟨"postgresql"⟩⟩, "Db", ⟨false, true, false, false, false, false⟩⟩
      (runModels ⟨⟨some ⟨[⟨"public", [⟨⟨"public", "authors"⟩,
          [⟨"id", some ⟨"int4"⟩, true, false, false, none, none, ""⟩,
           ⟨"name", some ⟨"text"⟩, true, false, false, none, none, ""⟩]⟩]⟩]⟩,
        [⟨"GetAuthor", "SELECT id, name FROM authors WHERE id = $1", ":one", [],
          [⟨"id", some ⟨"int4"⟩, true, false, false, none, none, ""⟩,
           ⟨"name", some ⟨"text"⟩, true, false, false, none, none, ""⟩], []⟩,
         ⟨"InsertAuthor", "INSERT INTO authors (name) VALUES ($1) RETURNING id, name", ":one", [],
          [⟨"id", some ⟨"int4"⟩, true, false, false, none, none, ""⟩,
           ⟨"name", some ⟨"text"⟩, true, false, false, none, none, ""⟩], []⟩],
        ⟨"postgresql"⟩⟩, "Db", ⟨false, true, false, false, false, false⟩⟩).sigs
      ⟨"GetAuthor", "SELECT id, name FROM authors WHERE id = $1", ":one", [],
        [⟨"id", some ⟨"int4"⟩, true, false, false, none, none, ""⟩,
         ⟨"name", some ⟨"text"⟩, true, false, false, none, none, ""⟩], []⟩ = "Author" := by
  constructor
  · exact (c1_struct_dedup _ _ rfl (by decide) _ _
      (List.mem_cons_self _ _) (List.mem_cons_of_mem _ (List.mem_cons_self _ _))
      (Or.inl rfl) (Or.inl rfl) (by decide) (by decide)).1 (by decide)
  · exact (c1_struct_dedup _ _ rfl (by decide) _ _
      (List.mem_cons_self _ _) (List.mem_cons_of_mem _ (List.mem_cons_self _ _))
      (Or.inl rfl) (Or.inl rfl) (by decide) (by decide)).2 "Author" (by decide) (by decide)

/-! ## Claim C9: signature uniqueness and nonempty structs in `models.cr` -/

/-- The structural signature of a built struct. -/
def sigOf (s : CrystalStruct) : String := fieldsSig s.fields

/-- Keys of an association list are pairwise distinct. -/
def keysNodup (l : List (String × α)) : Prop := (l.map Prod.fst).Nodup

theorem upsert_keys (k : String) (v : α) (l : List (String × α)) :
    (upsert k v l).map Prod.fst =
      if k ∈ l.map Prod.fst then l.map Prod.fst else l.map Prod.fst ++ [k] := by
  induction l with
  | nil => simp [upsert]
  | cons hd tl ih =>
    obtain ⟨k0, v0⟩ := hd
    by_cases h : k0 = k
    · subst h
      simp [upsert]
    · by_cases hm : k ∈ tl.map Prod.fst <;>
        simp [upsert, h, ih, hm, Ne.symm h]

theorem keysNodup_upsert (k : String) (v : α) (l : List (String × α))
    (h : keysNodup l) : keysNodup (upsert k v l) := by
  unfold keysNodup at h ⊢
  rw [upsert_keys]
  split_ifs with hm
  · exact h
  · exact List.Nodup.append h (List.nodup_singleton k)
      (List.disjoint_singleton.mpr hm)

theorem mem_of_lookupA (l : List (String × α)) (k : String) (v : α)
    (h : lookupA k l = some v) : (k, v) ∈ l := by
  induction l with
  | nil => cases h
  | cons hd tl ih =>
    obtain ⟨k0, v0⟩ := hd
    unfold lookupA at h
    split_ifs at h with hk
    · cases h
      subst hk
      exact List.mem_cons_self _ _
    · exact List.mem_cons_of_mem _ (ih h)

theorem lookupA_of_mem (l : List (String × α)) (hnod : keysNodup l) (k : String) (v : α)
    (h : (k, v) ∈ l) : lookupA k l = some v := by
  induction l with
  | nil => cases h
  | cons hd tl ih =>
    obtain ⟨k0, v0⟩ := hd
    unfold keysNodup at hnod
    simp only [List.map_cons, List.nodup_cons] at hnod
    rcases List.mem_cons.mp h with heq | hmem
    · cases heq
      unfold lookupA
      rw [if_pos rfl]
    · unfold lookupA
      split_ifs with hk
      · exfalso
        subst hk
        exact hnod.1 (List.mem_map_of_mem Prod.fst hmem)
      · exact ih hnod.2 hmem

/-- The invariant maintained by the query pass of `generateModels`. -/
structure RegInv (st : ModelsState) : Prop where
  nod : keysNodup st.structs
  named : ∀ k s, lookupA k st.structs = some s → s.name = k
  registered : ∀ k s, lookupA k st.structs = some s →
    ∃ v, lookupA (sigOf s) st.sigs = some v
  uniq : ∀ k1 k2 s1 s2, lookupA k1 st.structs = some s1 →
    lookupA k2 st.structs = some s2 → k1 ≠ k2 → s1.tableName = "" →
    sigOf s1 ≠ sigOf s2

/-- The stronger invariant that holds after the table pass: additionally,
every struct is table-derived (nonempty table name) and has fields. -/
structure TableInv (st : ModelsState) : Prop where
  reg : RegInv st
  allT : ∀ k s, lookupA k st.structs = some s → s.tableName ≠ "" ∧ s.fields ≠ []

theorem tableInv_empty : TableInv emptyModels := by
  refine ⟨⟨?_, ?_, ?_, ?_⟩, ?_⟩
  · simp [keysNodup, emptyModels]
  · intro k s h
    cases h
  · intro k s h
    cases h
  · intro k1 k2 s1 s2 h1
    cases h1
  · intro k s h
    cases h

/-- Shape of one table step: unchanged, or insert of a table struct. -/
theorem processTable_cases (g : Generator) (st : ModelsState) (t : Table) :
    processTable g st t = st ∨
    ∃ name fields, fields ≠ [] ∧
      processTable g st t =
        ⟨upsert name ⟨name, t.rel.name, fields⟩ st.structs,
         upsert (fieldsSig fields) name st.sigs⟩ := by
  unfold processTable
  by_cases h1 : (strStartsWith t.rel.name "pg_" || strStartsWith t.rel.name "sql_" ||
      t.rel.schema = "information_schema" || t.rel.schema = "pg_catalog") = true
  · rw [if_pos h1]
    exact Or.inl rfl
  rw [if_neg h1]
  by_cases h2 : (t.columns.map (plainField g)).length > 0
  · right
    refine ⟨toPascalCase (singularize t.rel.name), t.columns.map (plainField g), ?_, ?_⟩
    · intro hc
      rw [hc] at h2
      simp at h2
    · simp [h2]
      intro hc
      exfalso
      rw [hc] at h2
      simp at h2
  · left
    simp [h2]
    intro hlen
    exfalso
    rw [List.length_map] at h2
    omega

theorem processTable_tableInv (g : Generator) (st : ModelsState) (t : Table)
    (htn : t.rel.name ≠ "") (h : TableInv st) : TableInv (processTable g st t) := by
  rcases processTable_cases g st t with heq | ⟨name, fields, hfne, heq⟩
  · rw [heq]; exact h
  · rw [heq]
    refine ⟨⟨keysNodup_upsert _ _ _ h.reg.nod, ?_, ?_, ?_⟩, ?_⟩
    · intro k s hs
      rw [lookupA_upsert] at hs
      split_ifs at hs with hk
      · cases hs
        exact hk.symm
      · exact h.reg.named k s hs
    · intro k s hs
      rw [lookupA_upsert] at hs
      rw [lookupA_upsert]
      by_cases hsig : sigOf s = fieldsSig fields
      · rw [if_pos hsig]
        exact ⟨name, rfl⟩
      · rw [if_neg hsig]
        split_ifs at hs with hk
        · cases hs
          exact absurd rfl hsig
        · exact h.reg.registered k s hs
    · intro k1 k2 s1 s2 hs1 hs2 hne hq1
      rw [lookupA_upsert] at hs1 hs2
      split_ifs at hs1 with hk1
      · cases hs1
        exact absurd hq1 htn
      · split_ifs at hs2 with hk2
        · cases hs2
          exact absurd hq1 (h.allT k1 s1 hs1).1
        · exact h.reg.uniq k1 k2 s1 s2 hs1 hs2 hne hq1
    · intro k s hs
      rw [lookupA_upsert] at hs
      split_ifs at hs with hk
      · cases hs
        exact ⟨htn, hfne⟩
      · exact h.allT k s hs

/-- Shape of one query step (full state): unchanged, or insert of a
query-derived struct at an unregistered signature. -/
theorem processQuery_cases (g : Generator) (st : ModelsState) (q : Query) :
    processQuery g st q = st ∨
    ∃ name, q.columns ≠ [] ∧ lookupA (fieldsSig (queryFields g q)) st.sigs = none ∧
      processQuery g st q =
        ⟨upsert name ⟨name, "", queryFields g q⟩ st.structs,
         upsert (fieldsSig (queryFields g q)) name st.sigs⟩ := by
  unfold processQuery
  by_cases h1 : q.columns.length = 0
  · rw [if_pos h1]
    exact Or.inl rfl
  rw [if_neg h1]
  by_cases h2 : (q.cmd = ":exec" || q.cmd = ":execresult" || q.cmd = ":execrows" ||
      q.cmd = ":copyfrom") = true
  · rw [if_pos h2]
    exact Or.inl rfl
  rw [if_neg h2]
  cases hl : lookupA (fieldsSig (queryFields g q)) st.sigs with
  | some n =>
    left
    simp only [hl]
  | none =>
    right
    exact ⟨toPascalCase q.name ++ (if q.cmd = ":one" || q.cmd = ":many" then "Row" else ""),
      fun hc => h1 (by rw [hc]; rfl), rfl, by simp only [hl]⟩

theorem processQuery_regInv (g : Generator) (st : ModelsState) (q : Query)
    (h : RegInv st) : RegInv (processQuery g st q) := by
  rcases processQuery_cases g st q with heq | ⟨name, hcne, hnone, heq⟩
  · rw [heq]
    exact h
  · rw [heq]
    refine ⟨keysNodup_upsert _ _ _ h.nod, ?_, ?_, ?_⟩
    · intro k s hs
      rw [lookupA_upsert] at hs
      split_ifs at hs with hk
      · cases hs
        exact hk.symm
      · exact h.named k s hs
    · intro k s hs
      rw [lookupA_upsert] at hs
      rw [lookupA_upsert]
      by_cases hsig : sigOf s = fieldsSig (queryFields g q)
      · rw [if_pos hsig]
        exact ⟨name, rfl⟩
      · rw [if_neg hsig]
        split_ifs at hs with hk
        · cases hs
          exact absurd rfl hsig
        · exact h.registered k s hs
    · intro k1 k2 s1 s2 hs1 hs2 hne hq1
      rw [lookupA_upsert] at hs1 hs2
      split_ifs at hs1 with hk1
      · cases hs1
        split_ifs at hs2 with hk2
        · exact absurd (hk1.trans hk2.symm) hne
        · intro hcontra
          obtain ⟨v, hv⟩ := h.registered k2 s2 hs2
          rw [← hcontra] at hv
          rw [show sigOf ⟨name, "", queryFields g q⟩ = fieldsSig (queryFields g q) from rfl] at hv
          rw [hnone] at hv
          cases hv
      · split_ifs at hs2 with hk2
        · cases hs2
          intro hcontra
          obtain ⟨v, hv⟩ := h.registered k1 s1 hs1
          rw [hcontra] at hv
          rw [show sigOf ⟨name, "", queryFields g q⟩ = fieldsSig (queryFields g q) from rfl] at hv
          rw [hnone] at hv
          cases hv
        · exact h.uniq k1 k2 s1 s2 hs1 hs2 hne hq1

theorem foldTables_tableInv (g : Generator) (ts : List Table) (st : ModelsState)
    (htn : ∀ t ∈ ts, t.rel.name ≠ "") (h : TableInv st) :
    TableInv (ts.foldl (processTable g) st) := by
  induction ts generalizing st with
  | nil => exact h
  | cons t rest ih =>
    exact ih (processTable g st t) (fun x hx => htn x (List.mem_cons_of_mem t hx))
      (processTable_tableInv g st t (htn t (List.mem_cons_self t rest)) h)

theorem processSchema_tableInv (g : Generator) (st : ModelsState) (sch : Schema)
    (htn : ∀ t ∈ sch.tables, t.rel.name ≠ "") (h : TableInv st) :
    TableInv (processSchema g st sch) := by
  unfold processSchema
  split_ifs
  · exact h
  · exact foldTables_tableInv g sch.tables st htn h

theorem foldSchemas_tableInv (g : Generator) (ss : List Schema) (st : ModelsState)
    (htn : ∀ sch ∈ ss, ∀ t ∈ sch.tables, t.rel.name ≠ "") (h : TableInv st) :
    TableInv (ss.foldl (processSchema g) st) := by
  induction ss generalizing st with
  | nil => exact h
  | cons sch rest ih =>
    exact ih (processSchema g st sch) (fun x hx => htn x (List.mem_cons_of_mem sch hx))
      (processSchema_tableInv g st sch (htn sch (List.mem_cons_self sch rest)) h)

theorem foldQueries_regInv (g : Generator) (l : List Query) (st : ModelsState)
    (h : RegInv st) : RegInv (l.foldl (processQuery g) st) := by
  induction l generalizing st with
  | nil => exact h
  | cons q rest ih => exact ih _ (processQuery_regInv g st q h)

theorem runModels_regInv (g : Generator)
    (htn : ∀ cat, g.req.catalog = some cat →
      ∀ sch ∈ cat.schemas, ∀ t ∈ sch.tables, t.rel.name ≠ "") :
    RegInv (runModels g) := by
  unfold runModels
  cases hcat : g.req.catalog with
  | none => exact tableInv_empty.reg
  | some cat =>
    show RegInv (if cat.schemas.length > 0 then
      List.foldl (processQuery g) (List.foldl (processSchema g) emptyModels cat.schemas)
        g.req.queries else emptyModels)
    split_ifs with hlen
    · exact foldQueries_regInv g g.req.queries _
        (foldSchemas_tableInv g cat.schemas emptyModels (htn cat hcat) tableInv_empty).reg
    · exact tableInv_empty.reg

/-- Every struct in the state has at least one field. -/
def NEInv (st : ModelsState) : Prop :=
  ∀ k s, lookupA k st.structs = some s → s.fields ≠ []

theorem processTable_neInv (g : Generator) (st : ModelsState) (t : Table)
    (h : NEInv st) : NEInv (processTable g st t) := by
  rcases processTable_cases g st t with heq | ⟨name, fields, hfne, heq⟩
  · rw [heq]
    exact h
  · rw [heq]
    intro k s hs
    rw [lookupA_upsert] at hs
    split_ifs at hs with hk
    · cases hs
      exact hfne
    · exact h k s hs

theorem processQuery_neInv (g : Generator) (st : ModelsState) (q : Query)
    (hne : ∀ c ∈ q.columns, c.embedTable = none)
    (h : NEInv st) : NEInv (processQuery g st q) := by
  rcases processQuery_cases g st q with heq | ⟨name, hcne, hnone, heq⟩
  · rw [heq]
    exact h
  · rw [heq]
    intro k s hs
    rw [lookupA_upsert] at hs
    split_ifs at hs with hk
    · cases hs
      show queryFields g q ≠ []
      rw [queryFields_no_embed g q hne]
      intro hc
      exact hcne (List.map_eq_nil_iff.mp hc)
    · exact h k s hs

theorem runModels_neInv (g : Generator)
    (hq : ∀ q ∈ g.req.queries, ∀ c ∈ q.columns, c.embedTable = none) :
    NEInv (runModels g) := by
  have hempty : NEInv emptyModels := by
    intro k s h
    cases h
  have htables : ∀ (ts : List Table) (st : ModelsState), NEInv st →
      NEInv (ts.foldl (processTable g) st) := by
    intro ts
    induction ts with
    | nil => intro st h; exact h
    | cons t rest ih => intro st h; exact ih _ (processTable_neInv g st t h)
  have hschema : ∀ (ss : List Schema) (st : ModelsState), NEInv st →
      NEInv (ss.foldl (processSchema g) st) := by
    intro ss
    induction ss with
    | nil => intro st h; exact h
    | cons sch rest ih =>
      intro st h
      refine ih _ ?_
      unfold processSchema
      split_ifs
      · exact h
      · exact htables sch.tables st h
  have hqueries : ∀ (l : List Query), (∀ q ∈ l, ∀ c ∈ q.columns, c.embedTable = none) →
      ∀ (st : ModelsState), NEInv st → NEInv (l.foldl (processQuery g) st) := by
    intro l
    induction l with
    | nil => intro _ st h; exact h
    | cons q rest ih =>
      intro hl st h
      exact ih (fun x hx => hl x (List.mem_cons_of_mem q hx)) _
        (processQuery_neInv g st q (hl q (List.mem_cons_self q rest)) h)
  unfold runModels
  cases hcat : g.req.catalog with
  | none => exact hempty
  | some cat =>
    show NEInv (if cat.schemas.length > 0 then
      List.foldl (processQuery g) (List.foldl (processSchema g) emptyModels cat.schemas)
        g.req.queries else emptyModels)
    split_ifs with hlen
    · exact hqueries g.req.queries hq _ (hschema cat.schemas emptyModels hempty)
    · exact hempty

theorem mem_emittedModels (g : Generator) (s : CrystalStruct)
    (h : s ∈ emittedModels g) : ∃ k, (k, s) ∈ (runModels g).structs := by
  unfold emittedModels at h
  have h2 : s ∈ (runModels g).structs.map (·.2) :=
    (sortS_perm structNameLt _).mem_iff.mp h
  obtain ⟨p, hp, hps⟩ := List.mem_map.mp h2
  exact ⟨p.1, by rw [← hps]; exact hp⟩

/-- C9 (amended): in the emitted `models.cr` struct list of one run, no
query-derived struct shares its field signature with any other emitted
struct (two table-derived structs MAY share a signature — see the
counterexample), and, provided no query uses embed markers, no emitted
struct has zero fields (a query mixing embed-marked and table-qualified
plain columns on the same table can produce an empty struct — see the
counterexample).  Table names are assumed nonempty (a table-derived struct
is recognized by its nonempty `tableName`). -/
theorem c9_models_output (g : Generator)
    (htn : ∀ cat, g.req.catalog = some cat →
      ∀ sch ∈ cat.schemas, ∀ t ∈ sch.tables, t.rel.name ≠ "") :
    (∀ s1 ∈ emittedModels g, ∀ s2 ∈ emittedModels g,
      s1.tableName = "" → sigOf s1 = sigOf s2 → s1 = s2) ∧
    ((∀ q ∈ g.req.queries, ∀ c ∈ q.columns, c.embedTable = none) →
      ∀ s ∈ emittedModels g, s.fields ≠ []) := by
  have hreg := runModels_regInv g htn
  constructor
  · intro s1 hs1 s2 hs2 hq1 hsig
    obtain ⟨k1, hk1⟩ := mem_emittedModels g s1 hs1
    obtain ⟨k2, hk2⟩ := mem_emittedModels g s2 hs2
    have hl1 := lookupA_of_mem _ hreg.nod _ _ hk1
    have hl2 := lookupA_of_mem _ hreg.nod _ _ hk2
    by_cases hkk : k1 = k2
    · rw [hkk] at hl1
      rw [hl1] at hl2
      cases hl2
      rfl
    · exact absurd hsig (hreg.uniq k1 k2 s1 s2 hl1 hl2 hkk hq1)
  · intro hq s hs
    obtain ⟨k, hk⟩ := mem_emittedModels g s hs
    exact runModels_neInv g hq k s (lookupA_of_mem _ hreg.nod _ _ hk)

/-- C9 counterexample: (a) two tables with identical column lists produce
two emitted structs (`Cat`, `Dog`) with the SAME field signature — the
dedup map only prevents query-derived duplicates; (b) a query whose columns
mix a table-qualified plain column and an embed-marked column of the same
table produces an emitted query struct with ZERO fields (the group is
keyed by the table, its first column is not embed-marked, so the whole
group is dropped). -/
theorem c9_models_output_cex :
    ((emittedModels ⟨⟨some ⟨[⟨"public",
        [⟨⟨"public", "cats"⟩, [⟨"name", some ⟨"text"⟩, true, false, false, none, none, ""⟩]⟩,
         ⟨⟨"public", "dogs"⟩, [⟨"name", some ⟨"text"⟩, true, false, false, none, none, ""⟩]⟩]⟩]⟩,
        [], ⟨"postgresql"⟩⟩, "Db", ⟨false, true, false, false, false, false⟩⟩).map
          (fun s => (s.name, sigOf s)) =
      [("Cat", "name:String;"), ("Dog", "name:String;")]) ∧
    ((emittedModels ⟨⟨some ⟨[⟨"public",
        [⟨⟨"public", "books"⟩, [⟨"title", some ⟨"text"⟩, true, false, false, none, none, ""⟩]⟩]⟩]⟩,
        [⟨"MixedQuery", "SELECT title, b FROM books", ":many", [],
          [⟨"title", some ⟨"text"⟩, true, false, false, none, some ⟨"public", "books"⟩, ""⟩,
           ⟨"books", some ⟨"text"⟩, true, false, false, some ⟨"public", "books"⟩, none, ""⟩],
          []⟩],
        ⟨"postgresql"⟩⟩, "Db", ⟨false, true, false, false, false, false⟩⟩).map
          (fun s => (s.name, s.fields.length)) =
      [("Book", 1), ("MixedQueryRow", 0)]) := by
  exact ⟨by decide, by decide⟩

theorem c9_models_output_witness :
    (∀ s1 ∈ emittedModels ⟨⟨some ⟨[⟨"public",
        [⟨⟨"public", "authors"⟩, [⟨"id", some ⟨"int4"⟩, true, false, false, none, none, ""⟩]⟩]⟩]⟩,
        [⟨"CountThings", "SELECT count(*) AS total, max(id) AS top FROM authors", ":one", [],
          [⟨"total", some ⟨"int8"⟩, true, false, false, none, none, ""⟩,
           ⟨"top", some ⟨"int4"⟩, true, false, false, none, none, ""⟩], []⟩],
        ⟨"postgresql"⟩⟩, "Db", ⟨false, true, false, false, false, false⟩⟩,
      ∀ s2 ∈ emittedModels ⟨⟨some ⟨[⟨"public",
        [⟨⟨"public", "authors"⟩, [⟨"id", some ⟨"int4"⟩, true, false, false, none, none, ""⟩]⟩]⟩]⟩,
        [⟨"CountThings", "SELECT count(*) AS total, max(id) AS top FROM authors", ":one", [],
          [⟨"total", some ⟨"int8"⟩, true, false, false, none, none, ""⟩,
           ⟨"top", some ⟨"int4"⟩, true, false, false, none, none, ""⟩], []⟩],
        ⟨"postgresql"⟩⟩, "Db", ⟨false, true, false, false, false, false⟩⟩,
      s1.tableName = "" → sigOf s1 = sigOf s2 → s1 = s2) ∧
    (∀ s ∈ emittedModels ⟨⟨some ⟨[⟨"public",
        [⟨⟨"public", "authors"⟩, [⟨"id", some ⟨"int4"⟩, true, false, false, none, none, ""⟩]⟩]⟩]⟩,
        [⟨"CountThings", "SELECT count(*) AS total, max(id) AS top FROM authors", ":one", [],
          [⟨"total", some ⟨"int8"⟩, true, false, false, none, none, ""⟩,
           ⟨"top", some ⟨"int4"⟩, true, false, false, none, none, ""⟩], []⟩],
        ⟨"postgresql"⟩⟩, "Db", ⟨false, true, false, false, false, false⟩⟩, s.fields ≠ []) :=
  ⟨(c9_models_output _ (by decide)).1,
   (c9_models_output _ (by decide)).2 (by decide)⟩

/-! ## Claim C7: nullability of embedded fields -/

theorem append_q_ne_self (s : String) : s ++ "?" ≠ s := by
  intro hc
  have hlen := congrArg (fun x : String => x.data.length) hc
  simp only [strData_append] at hlen
  simp at hlen

/-- C7 (amended): an embedded field built by the models pass for table `tn`
is typed optional (`?`-suffixed table-struct name) EXACTLY when the
uppercased query text contains `LEFT JOIN` and does not contain `FROM `
followed by the uppercased table name.  (The claim said "contains an
outer-join keyword": `RIGHT JOIN` also counts as an outer join and enables
the nullability check, but the inner branch only fires for `LEFT JOIN`, so
a pure RIGHT JOIN never marks any embedded field optional — see the
counterexample.) -/
theorem c7_embed_nullability (g : Generator) (q : Query) (tn : String)
    (cols : List Column) (f : CrystalField)
    (_hmem : (tn, cols) ∈ (classifyColumns q.columns).1)
    (hf : embedFieldForGroup g q.text tn cols = some f) :
    (f.type = findTableStructName g.req.catalog tn ++ "?" ∨
      f.type = findTableStructName g.req.catalog tn) ∧
    (f.type = findTableStructName g.req.catalog tn ++ "?" ↔
      (strContains (upperStr q.text) "LEFT JOIN" = true ∧
       strContains (upperStr q.text) ("FROM " ++ upperStr tn) = false)) := by
  cases cols with
  | nil =>
    simp only [embedFieldForGroup] at hf
    cases hf
  | cons c rest =>
    simp only [embedFieldForGroup] at hf
    cases hemb : c.embedTable with
    | none =>
      rw [hemb] at hf
      simp at hf
    | some et =>
      rw [hemb] at hf
      simp only [Option.isSome_some, if_true] at hf
      have hft := (congrArg CrystalField.type (Option.some.inj hf)).symm
      by_cases hL : strContains (upperStr q.text) "LEFT JOIN" = true
      · by_cases hF : strContains (upperStr q.text) ("FROM " ++ upperStr tn) = true
        · have ht : f.type = findTableStructName g.req.catalog tn := by
            rw [hft]
            simp [hL, hF]
          refine ⟨Or.inr ht, ?_, ?_⟩
          · intro hc
            rw [ht] at hc
            exact absurd hc.symm (append_q_ne_self _)
          · intro ⟨_, hc⟩
            rw [hF] at hc
            cases hc
        · have hFf : strContains (upperStr q.text) ("FROM " ++ upperStr tn) = false := by
            cases hx : strContains (upperStr q.text) ("FROM " ++ upperStr tn)
            · rfl
            · exact absurd hx hF
          have ht : f.type = findTableStructName g.req.catalog tn ++ "?" := by
            rw [hft]
            simp [hL, hFf]
          exact ⟨Or.inl ht, fun _ => ⟨hL, hFf⟩, fun _ => ht⟩
      · have hLf : strContains (upperStr q.text) "LEFT JOIN" = false := by
          cases hx : strContains (upperStr q.text) "LEFT JOIN"
          · rfl
          · exact absurd hx hL
        have ht : f.type = findTableStructName g.req.catalog tn := by
          rw [hft]
          by_cases hR : strContains (upperStr q.text) "RIGHT JOIN" = true <;>
            simp [hLf, hR]
        refine ⟨Or.inr ht, ?_, ?_⟩
        · intro hc
          rw [ht] at hc
          exact absurd hc.symm (append_q_ne_self _)
        · intro ⟨hc, _⟩
          rw [hLf] at hc
          cases hc

/-- C7 counterexample: under `FROM authors RIGHT JOIN books`, the raw SQL
contains an outer-join keyword and `books` is not the FROM table, yet the
generated embedded field for `books` is NOT optional (type `Book`, not
`Book?`): the nested branch only handles LEFT JOIN. -/
theorem c7_embed_nullability_cex :
    strContains (upperStr "SELECT sqlc.embed(authors), sqlc.embed(books) FROM authors RIGHT JOIN books ON books.author_id = authors.id")
      "RIGHT JOIN" = true ∧
    strContains (upperStr "SELECT sqlc.embed(authors), sqlc.embed(books) FROM authors RIGHT JOIN books ON books.author_id = authors.id")
      ("FROM " ++ upperStr "books") = false ∧
    (emittedModels ⟨⟨some ⟨[⟨"public",
        [⟨⟨"public", "authors"⟩, [⟨"id", some ⟨"int4"⟩, true, false, false, none, none, ""⟩]⟩,
         ⟨⟨"public", "books"⟩, [⟨"id", some ⟨"int4"⟩, true, false, false, none, none, ""⟩]⟩]⟩]⟩,
        [⟨"GetRj", "SELECT sqlc.embed(authors), sqlc.embed(books) FROM authors RIGHT JOIN books ON books.author_id = authors.id", ":many", [],
          [⟨"authors", some ⟨"text"⟩, true, false, false, some ⟨"public", "authors"⟩, none, ""⟩,
           ⟨"books", some ⟨"text"⟩, true, false, false, some ⟨"public", "books"⟩, none, ""⟩],
          []⟩],
        ⟨"postgresql"⟩⟩, "Db", ⟨false, true, false, false, false, false⟩⟩).map
          (fun s => (s.name, s.fields.map (fun f => (f.name, f.type)))) =
      [("Author", [("id", "Int32")]),
       ("Book", [("id", "Int32")]),
       ("GetRjRow", [("author", "Author"), ("book", "Book")])] := by
  exact ⟨by decide, by decide, by decide⟩

theorem c7_embed_nullability_witness :
    ((⟨"book", "book", "", "Book?"⟩ : CrystalField).type =
      findTableStructName (some ⟨[⟨"public",
        [⟨⟨"public", "authors"⟩, [⟨"id", some ⟨"int4"⟩, true, false, false, none, none, ""⟩]⟩,
         ⟨⟨"public", "books"⟩, [⟨"id", some ⟨"int4"⟩, true, false, false, none, none, ""⟩]⟩]⟩]⟩)
        "books" ++ "?") ∧
    ¬((⟨"author", "author", "", "Author"⟩ : CrystalField).type =
      findTableStructName (some ⟨[⟨"public",
        [⟨⟨"public", "authors"⟩, [⟨"id", some ⟨"int4"⟩, true, false, false, none, none, ""⟩]⟩,
         ⟨⟨"public", "books"⟩, [⟨"id", some ⟨"int4"⟩, true, false, false, none, none, ""⟩]⟩]⟩]⟩)
        "authors" ++ "?") := by
  constructor
  · exact (c7_embed_nullability
      ⟨⟨some ⟨[⟨"public",
        [⟨⟨"public", "authors"⟩, [⟨"id", some ⟨"int4"⟩, true, false, false, none, none, ""⟩]⟩,
         ⟨⟨"public", "books"⟩, [⟨"id", some ⟨"int4"⟩, true, false, false, none, none, ""⟩]⟩]⟩]⟩,
        [], ⟨"postgresql"⟩⟩, "Db", ⟨false, true, false, false, false, false⟩⟩
      ⟨"GetLj", "SELECT sqlc.embed(authors), sqlc.embed(books) FROM authors LEFT JOIN books ON books.author_id = authors.id", ":many", [],
        [⟨"authors", some ⟨"text"⟩, true, false, false, some ⟨"public", "authors"⟩, none, ""⟩,
         ⟨"books", some ⟨"text"⟩, true, false, false, some ⟨"public", "books"⟩, none, ""⟩], []⟩
      "books"
      [⟨"books", some ⟨"text"⟩, true, false, false, some ⟨"public", "books"⟩, none, ""⟩]
      ⟨"book", "book", "", "Book?"⟩ (by decide) (by decide)).2.mpr ⟨by decide, by decide⟩
  · intro hc
    exact absurd ((c7_embed_nullability
      ⟨⟨some ⟨[⟨"public",
        [⟨⟨"public", "authors"⟩, [⟨"id", some ⟨"int4"⟩, true, false, false, none, none, ""⟩]⟩,
         ⟨⟨"public", "books"⟩, [⟨"id", some ⟨"int4"⟩, true, false, false, none, none, ""⟩]⟩]⟩]⟩,
        [], ⟨"postgresql"⟩⟩, "Db", ⟨false, true, false, false, false, false⟩⟩
      ⟨"GetLj", "SELECT sqlc.embed(authors), sqlc.embed(books) FROM authors LEFT JOIN books ON books.author_id = authors.id", ":many", [],
        [⟨"authors", some ⟨"text"⟩, true, false, false, some ⟨"public", "authors"⟩, none, ""⟩,
         ⟨"books", some ⟨"text"⟩, true, false, false, some ⟨"public", "books"⟩, none, ""⟩], []⟩
      "authors"
      [⟨"authors", some ⟨"text"⟩, true, false, false, some ⟨"public", "authors"⟩, none, ""⟩]
      ⟨"author", "author", "", "Author"⟩ (by decide) (by decide)).2.mp hc).2 (by decide)

/-! ## Claim C8: determinism of the emitted file list -/

/-- C8, evaluated at the failing input: with per-table repositories enabled
and queries on two tables, the `tableQueries` Go map has keys
`cats`, `dogs`; Go map iteration order is unspecified (randomized per run),
and the two admissible iteration orders yield the emitted repository files
in DIFFERENT orders — the emitted file list is not byte-identical across
runs of the same request. -/
theorem c8_repo_order_nondeterministic :
    ((repoTableQueries ⟨⟨none,
        [⟨"CreateCat", "INSERT INTO cats (name) VALUES ($1)", ":exec",
          [⟨1, ⟨"name", some ⟨"text"⟩, true, false, false, none, none, ""⟩⟩], [], []⟩,
         ⟨"CreateDog", "INSERT INTO dogs (name) VALUES ($1)", ":exec",
          [⟨1, ⟨"name", some ⟨"text"⟩, true, false, false, none, none, ""⟩⟩], [], []⟩],
        ⟨"postgresql"⟩⟩, "Db", ⟨false, true, false, false, true, false⟩⟩ []).map Prod.fst =
      ["cats", "dogs"]) ∧
    (["dogs", "cats"] : List String).Perm ["cats", "dogs"] ∧
    ((runRepositories ⟨⟨none,
        [⟨"CreateCat", "INSERT INTO cats (name) VALUES ($1)", ":exec",
          [⟨1, ⟨"name", some ⟨"text"⟩, true, false, false, none, none, ""⟩⟩], [], []⟩,
         ⟨"CreateDog", "INSERT INTO dogs (name) VALUES ($1)", ":exec",
          [⟨1, ⟨"name", some ⟨"text"⟩, true, false, false, none, none, ""⟩⟩], [], []⟩],
        ⟨"postgresql"⟩⟩, "Db", ⟨false, true, false, false, true, false⟩⟩ [] ["cats", "dogs"]).map
          (fun f => f.name) =
      ["repositories/cats_repository.cr", "repositories/dogs_repository.cr"]) ∧
    ((runRepositories ⟨⟨none,
        [⟨"CreateCat", "INSERT INTO cats (name) VALUES ($1)", ":exec",
          [⟨1, ⟨"name", some ⟨"text"⟩, true, false, false, none, none, ""⟩⟩], [], []⟩,
         ⟨"CreateDog", "INSERT INTO dogs (name) VALUES ($1)", ":exec",
          [⟨1, ⟨"name", some ⟨"text"⟩, true, false, false, none, none, ""⟩⟩], [], []⟩],
        ⟨"postgresql"⟩⟩, "Db", ⟨false, true, false, false, true, false⟩⟩ [] ["dogs", "cats"]).map
          (fun f => f.name) =
      ["repositories/dogs_repository.cr", "repositories/cats_repository.cr"]) ∧
    (runRepositories ⟨⟨none,
        [⟨"CreateCat", "INSERT INTO cats (name) VALUES ($1)", ":exec",
          [⟨1, ⟨"name", some ⟨"text"⟩, true, false, false, none, none, ""⟩⟩], [], []⟩,
         ⟨"CreateDog", "INSERT INTO dogs (name) VALUES ($1)", ":exec",
          [⟨1, ⟨"name", some ⟨"text"⟩, true, false, false, none, none, ""⟩⟩], [], []⟩],
        ⟨"postgresql"⟩⟩, "Db", ⟨false, true, false, false, true, false⟩⟩ [] ["cats", "dogs"]) ≠
      runRepositories ⟨⟨none,
        [⟨"CreateCat", "INSERT INTO cats (name) VALUES ($1)", ":exec",
          [⟨1, ⟨"name", some ⟨"text"⟩, true, false, false, none, none, ""⟩⟩], [], []⟩,
         ⟨"CreateDog", "INSERT INTO dogs (name) VALUES ($1)", ":exec",
          [⟨1, ⟨"name", some ⟨"text"⟩, true, false, false, none, none, ""⟩⟩], [], []⟩],
        ⟨"postgresql"⟩⟩, "Db", ⟨false, true, false, false, true, false⟩⟩ [] ["dogs", "cats"] := by
  refine ⟨by decide, List.Perm.swap "cats" "dogs" [], by decide, by decide, by decide⟩

end SqlcCr

-- sanity checks against the unit tests in the repository (generator_test.go)
example : SqlcCr.toSnakeCase "GetAuthor" = "get_author" := by decide
example : SqlcCr.toSnakeCase "HTTPRequest" = "http_request" := by decide
example : SqlcCr.toSnakeCase "GetAuthorByID" = "get_author_by_id" := by decide
example : SqlcCr.toSnakeCase "ID" = "id" := by decide
example : SqlcCr.toPascalCase "get_author" = "GetAuthor" := by decide
example : SqlcCr.toPascalCase "get-author" = "GetAuthor" := by decide
example : SqlcCr.toPascalCase "ID" = "ID" := by decide
example : SqlcCr.toConstantCase "GetAuthorByID" = "GET_AUTHOR_BY_ID" := by decide
example : SqlcCr.singularize "books" = "book" := by decide
example : SqlcCr.singularize "companies" = "company" := by decide
example : SqlcCr.singularize "knives" = "knife" := by decide
example : SqlcCr.singularize "processes" = "process" := by decide
example : SqlcCr.singularize "churches" = "church" := by decide
example : SqlcCr.singularize "people" = "person" := by decide
example : SqlcCr.singularize "data" = "data" := by decide
